import Mathlib

/-!
# FEM post-processing task panels (Mod/Fem/Gui/TaskPostBoxes.cpp)

A shallow embedding of the handlers of the FEM post-processing task panels,
followed by one of the selection view (Gui/Selection/SelectionView.cpp).

Conventions of the embedding

* A C++ double is an exact rational (type ℚ): arithmetic is exact, rounding and
  the non-finite values are outside the model.
* A std::string is a Lean String.  The only positional operation used by the
  panels is a search from position 0 compared with 0, which does not depend on
  the difference between bytes and code points.
* A panel is a record of the properties and widgets its handlers read and
  write, extended by a log of the commands and messages sent to the host
  application.  The engines behind recompute calls live outside the panels and
  are recorded in the log only.
-/

namespace FemGui

/-! ## std::string::find -/

/-- Leftmost position, counted from the running index, at which the pattern
occurs in the remaining text. -/
def findAux (pat : List Char) : List Char → Nat → Option Nat
  | [], i => if pat.isPrefixOf [] then some i else none
  | c :: t, i => if pat.isPrefixOf (c :: t) then some i else findAux pat t (i + 1)

/-- The call s.find(pat, pos); the value npos is none. -/
def find (s pat : String) (pos : Nat) : Option Nat :=
  if pos ≤ s.data.length then findAux pat.data (s.data.drop pos) pos else none

/-! ## Stream formatting state used by toString -/

/-- The floatfield of the stream flags. -/
inductive FloatField where
  | fixed
  | scientific
  deriving DecidableEq, Repr

/-- The format flags set on the value stream. -/
structure FmtFlags where
  floatfield : FloatField
  showpoint : Bool
  showpos : Bool
  deriving DecidableEq, Repr

/-- The text produced by inserting a double into a string stream is determined
by the flags, the precision and the value; the record stands for that text. -/
structure Formatted where
  flags : FmtFlags
  precision : Int
  val : ℚ
  deriving DecidableEq

/-! ## Widgets -/

/-- Modelled from the spec: the quantity spin box widget (Gui::QuantitySpinBox)
is not part of the sources.  It holds a value, and "signal blocking during
field synchronization" suppresses its valueChanged signal. -/
structure QuantitySpinBox where
  value : ℚ
  signalsBlocked : Bool
  deriving DecidableEq

namespace QuantitySpinBox

/-- The call blockSignals(b). -/
def blockSignals (w : QuantitySpinBox) (b : Bool) : QuantitySpinBox :=
  { w with signalsBlocked := b }

/-- The call setValue(v): the new widget and whether valueChanged is emitted.
An unblocked widget is taken to emit on every call. -/
def setValue (w : QuantitySpinBox) (v : ℚ) : QuantitySpinBox × Bool :=
  ({ w with value := v }, !w.signalsBlocked)

end QuantitySpinBox

/-! ## TaskPostDataAtPoint -/

/-- What the data-at-point panel sends to the host application. -/
inductive AtPointEvent where
  /-- The command "<obj>.Center = App.Vector(x, y, z)". -/
  | cmdCenter (x y z : ℚ)
  /-- The call getObject()->recomputeFeature(). -/
  | recomputeFeature
  /-- The console message of showValue: field, position, value and unit. -/
  | message (field : String) (posX posY posZ : ℚ) (value : Formatted) (unit : String)
  /-- The call e.reportException() of a caught Base::Exception. -/
  | reportException
  /-- The command built by objectVisible(visible). -/
  | cmdObjectVisible (visible : Bool)
  /-- Leaving the picking mode of the viewer. -/
  | leaveEditing
  deriving DecidableEq

/-- Values supplied by the host application to the data-at-point panel. -/
structure AtPointEnv where
  /-- The value of Base::UnitsApi::getDecimals(). -/
  decimals : Int
  /-- Whether the Center command raises a Base::Exception. -/
  centerCommandRaises : Bool

/-- The panel TaskPostDataAtPoint together with the filter object and the view
provider it edits. -/
structure TaskPostDataAtPoint where
  /-- The property Field of the view provider. -/
  viewField : Int
  /-- The text ui->Field->currentText(). -/
  fieldText : String
  /-- The property FieldName of the filter. -/
  FieldName : String
  /-- The property Unit of the filter. -/
  Unit : String
  /-- The entry PointData[0] of the filter. -/
  pointData0 : ℚ
  /-- The text of ui->ValueAtPoint: none when cleared, else value and unit. -/
  ValueAtPoint : Option (Formatted × String)
  centerX : QuantitySpinBox
  centerY : QuantitySpinBox
  centerZ : QuantitySpinBox
  /-- Whether a viewer is attached (the member viewer is not null). -/
  hasViewer : Bool
  log : List AtPointEvent

namespace TaskPostDataAtPoint

/-- The method toString(val): the value stream with its flags and precision. -/
def toString (decimals : Int) (val : ℚ) : Formatted :=
  let scientific : Bool := decide (val < 1 / 100) || decide (val > 10000)
  let flags : FmtFlags :=
    if scientific then
      { floatfield := FloatField.scientific, showpoint := true, showpos := true }
    else
      { floatfield := FloatField.fixed, showpoint := true, showpos := true }
  { flags := flags, precision := decimals, val := val }

/-- The method showValue(pointValue, unitStr). -/
def showValue (env : AtPointEnv) (pointValue : ℚ) (unitStr : String)
    (st : TaskPostDataAtPoint) : TaskPostDataAtPoint :=
  let value := toString env.decimals pointValue
  let unit := unitStr
  let st := { st with ValueAtPoint := some (value, unit) }
  let field := st.fieldText
  let posX := st.centerX.value
  let posY := st.centerY.value
  let posZ := st.centerZ.value
  { st with log := st.log ++ [AtPointEvent.message field posX posY posZ value unit] }

/-- The if / else-if chain of onFieldActivated that chooses the unit for the
known result types. -/
def unitChain (FieldName : String) : String :=
  if FieldName = "von Mises Stress" ∨ FieldName = "Tresca Stress"
      ∨ FieldName = "Major Principal Stress" ∨ FieldName = "Intermediate Principal Stress"
      ∨ FieldName = "Minor Principal Stress" ∨ FieldName = "Major Principal Stress Vector"
      ∨ FieldName = "Intermediate Principal Stress Vector"
      ∨ FieldName = "Minor Principal Stress Vector" ∨ FieldName = "Stress xx component"
      ∨ FieldName = "Stress xy component" ∨ FieldName = "Stress xz component"
      ∨ FieldName = "Stress yy component" ∨ FieldName = "Stress yz component"
      ∨ FieldName = "Stress zz component" then
    "Pa"
  else if find FieldName "tresca" 0 = some 0 ∨ find FieldName "vonmises" 0 = some 0
      ∨ find FieldName "stress_" 0 = some 0
      ∨ find FieldName "principal stress" 0 = some 0 then
    "Pa"
  else if FieldName = "current density" ∨ FieldName = "current density re"
      ∨ FieldName = "current density im" ∨ FieldName = "current density abs" then
    "A/m^2"
  else if FieldName = "Displacement" ∨ FieldName = "Displacement Magnitude"
      ∨ find FieldName "displacement" 0 = some 0 then
    "m"
  else if FieldName = "electric energy density" then
    "J/m^3"
  else if FieldName = "electric field" ∨ FieldName = "electric field re"
      ∨ FieldName = "electric field im" ∨ FieldName = "electric field abs" then
    "V/m"
  else if FieldName = "electric flux" then
    "A*s/m^2"
  else if FieldName = "electric force density" then
    "N/m^2"
  else if FieldName = "harmonic loss linear" ∨ FieldName = "harmonic loss quadratic" then
    "W"
  else if FieldName = "joule heating" ∨ FieldName = "nodal joule heating" then
    "J"
  else if FieldName = "magnetic field strength" ∨ FieldName = "magnetic field strength re"
      ∨ FieldName = "magnetic field strength im"
      ∨ FieldName = "magnetic field strength abs" then
    "A/m"
  else if FieldName = "magnetic flux density" ∨ FieldName = "magnetic flux density re"
      ∨ FieldName = "magnetic flux density im"
      ∨ FieldName = "magnetic flux density abs" then
    "T"
  else if FieldName = "maxwell stress 1" ∨ FieldName = "maxwell stress 2"
      ∨ FieldName = "maxwell stress 3" ∨ FieldName = "maxwell stress 4"
      ∨ FieldName = "maxwell stress 5" ∨ FieldName = "maxwell stress 6"
      ∨ FieldName = "maxwell stress re 1" ∨ FieldName = "maxwell stress re 2"
      ∨ FieldName = "maxwell stress re 3" ∨ FieldName = "maxwell stress re 4"
      ∨ FieldName = "maxwell stress re 5" ∨ FieldName = "maxwell stress re 6"
      ∨ FieldName = "maxwell stress im 1" ∨ FieldName = "maxwell stress im 2"
      ∨ FieldName = "maxwell stress im 3" ∨ FieldName = "maxwell stress im 4"
      ∨ FieldName = "maxwell stress im 5" ∨ FieldName = "maxwell stress im 6" then
    "As/m^3"
  else if FieldName = "nodal force" then
    "N"
  else if FieldName = "potential" ∨ FieldName = "potential re"
      ∨ FieldName = "potential im" ∨ FieldName = "potential abs"
      ∨ FieldName = "av" ∨ FieldName = "av re" ∨ FieldName = "av im"
      ∨ FieldName = "av abs" then
    "V"
  else if FieldName = "potential flux" then
    "W/m^2"
  else if FieldName = "potential loads" then
    "C"
  else if FieldName = "Temperature"
      ∨ (find FieldName "temperature" 0 = some 0 ∧ FieldName ≠ "temperature flux") then
    "K"
  else if FieldName = "temperature flux" then
    "W/m^2"
  else
    ""

/-- The slot onFieldActivated(i). -/
def onFieldActivated (env : AtPointEnv) (i : Int) (st : TaskPostDataAtPoint) :
    TaskPostDataAtPoint :=
  let st := { st with viewField := i }
  let FieldName := st.fieldText
  -- there is no "None" for the FieldName property, thus return here
  if FieldName = "None" then
    { st with Unit := "", ValueAtPoint := none }
  else
    let st := { st with FieldName := FieldName }
    let st := { st with Unit := unitChain FieldName }
    let pointValue := st.pointData0
    showValue env pointValue st.Unit st

/-- The slot centerChanged(double). -/
def centerChanged (env : AtPointEnv) (st : TaskPostDataAtPoint) : TaskPostDataAtPoint :=
  let st := { st with log := st.log ++
    [AtPointEvent.cmdCenter st.centerX.value st.centerY.value st.centerZ.value] }
  if env.centerCommandRaises then
    { st with log := st.log ++ [AtPointEvent.reportException] }
  else
    -- recompute the feature to fill all fields with data at this point
    let st := { st with log := st.log ++ [AtPointEvent.recomputeFeature] }
    let currentField := st.viewField
    onFieldActivated env currentField st

/-- The call ui->centerX->setValue(v) with the slot connected to valueChanged. -/
def setCenterX (env : AtPointEnv) (v : ℚ) (st : TaskPostDataAtPoint) : TaskPostDataAtPoint :=
  let r := st.centerX.setValue v
  let st := { st with centerX := r.1 }
  if r.2 then centerChanged env st else st

/-- The call ui->centerY->setValue(v) with the slot connected to valueChanged. -/
def setCenterY (env : AtPointEnv) (v : ℚ) (st : TaskPostDataAtPoint) : TaskPostDataAtPoint :=
  let r := st.centerY.setValue v
  let st := { st with centerY := r.1 }
  if r.2 then centerChanged env st else st

/-- The call ui->centerZ->setValue(v) with the slot connected to valueChanged. -/
def setCenterZ (env : AtPointEnv) (v : ℚ) (st : TaskPostDataAtPoint) : TaskPostDataAtPoint :=
  let r := st.centerZ.setValue v
  let st := { st with centerZ := r.1 }
  if r.2 then centerChanged env st else st

/-- The slot onChange(x, y, z), run when a point was picked in the viewer. -/
def onChange (env : AtPointEnv) (x y z : ℚ) (st : TaskPostDataAtPoint) :
    TaskPostDataAtPoint :=
  -- call centerChanged only once
  let st := { st with centerX := st.centerX.blockSignals true }
  let st := { st with centerY := st.centerY.blockSignals true }
  let st := { st with centerZ := st.centerZ.blockSignals true }
  let st := setCenterX env x st
  let st := setCenterY env y st
  let st := setCenterZ env z st
  let st := { st with centerX := st.centerX.blockSignals false }
  let st := { st with centerY := st.centerY.blockSignals false }
  let st := { st with centerZ := st.centerZ.blockSignals false }
  let st := centerChanged env st
  let st := { st with log := st.log ++ [AtPointEvent.cmdObjectVisible false] }
  if st.hasViewer then
    -- leave mode
    { st with log := st.log ++ [AtPointEvent.leaveEditing] }
  else
    st

end TaskPostDataAtPoint

/-! ## TaskPostDataAlongLine -/

/-- What the data-along-line panel sends to the host application. -/
inductive AlongLineEvent where
  /-- The command "<obj>.Point1 = App.Vector(x, y, z)". -/
  | cmdPoint1 (x y z : ℚ)
  /-- The command "<obj>.Point2 = App.Vector(x, y, z)". -/
  | cmdPoint2 (x y z : ℚ)
  /-- The call getObject()->recomputeFeature(). -/
  | recomputeFeature
  /-- Writing the current value of the view property Field back to it. -/
  | refreshField
  /-- The call GetAxisData() of the filter. -/
  | getAxisData
  /-- The call e.reportException() of a caught Base::Exception. -/
  | reportException
  /-- Leaving the picking mode of the marker view. -/
  | leaveEditing
  deriving DecidableEq

/-- Values supplied by the host application to the data-along-line panel. -/
structure AlongLineEnv where
  /-- The conversion of a double to the single precision of SbVec3f. -/
  toFloat : ℚ → ℚ
  /-- Whether the Point1 command raises a Base::Exception. -/
  point1CommandRaises : Bool
  /-- Whether the Point2 command raises a Base::Exception. -/
  point2CommandRaises : Bool

/-- The point marker: the coordinates held by its view provider. -/
structure PointMarker where
  points : List (ℚ × ℚ × ℚ)
  /-- Whether getView() is not null. -/
  hasView : Bool

namespace PointMarker

/-- The method countPoints(). -/
def countPoints (pm : PointMarker) : Nat := pm.points.length

/-- The method setPoint(idx, pt), used by the panel below countPoints() only. -/
def setPoint (pm : PointMarker) (idx : Nat) (pt : ℚ × ℚ × ℚ) : PointMarker :=
  { pm with points := pm.points.set idx pt }

end PointMarker

/-- The panel TaskPostDataAlongLine. -/
structure TaskPostDataAlongLine where
  point1X : QuantitySpinBox
  point1Y : QuantitySpinBox
  point1Z : QuantitySpinBox
  point2X : QuantitySpinBox
  point2Y : QuantitySpinBox
  point2Z : QuantitySpinBox
  /-- The member marker; none when it is null. -/
  marker : Option PointMarker
  log : List AlongLineEvent

namespace TaskPostDataAlongLine

/-- The slot point1Changed(double). -/
def point1Changed (env : AlongLineEnv) (st : TaskPostDataAlongLine) : TaskPostDataAlongLine :=
  let vec : ℚ × ℚ × ℚ :=
    (env.toFloat st.point1X.value, env.toFloat st.point1Y.value, env.toFloat st.point1Z.value)
  let st := { st with log := st.log ++ [AlongLineEvent.cmdPoint1 vec.1 vec.2.1 vec.2.2] }
  if env.point1CommandRaises then
    { st with log := st.log ++ [AlongLineEvent.reportException] }
  else
    let st :=
      match st.marker with
      | some m => if m.countPoints > 0 then { st with marker := some (m.setPoint 0 vec) } else st
      | none => st
    { st with log := st.log ++ [AlongLineEvent.recomputeFeature, AlongLineEvent.refreshField,
        AlongLineEvent.getAxisData] }

/-- The slot point2Changed(double); its handler only calls e.what(). -/
def point2Changed (env : AlongLineEnv) (st : TaskPostDataAlongLine) : TaskPostDataAlongLine :=
  let vec : ℚ × ℚ × ℚ :=
    (env.toFloat st.point2X.value, env.toFloat st.point2Y.value, env.toFloat st.point2Z.value)
  let st := { st with log := st.log ++ [AlongLineEvent.cmdPoint2 vec.1 vec.2.1 vec.2.2] }
  if env.point2CommandRaises then
    st
  else
    let st :=
      match st.marker with
      | some m => if m.countPoints > 1 then { st with marker := some (m.setPoint 1 vec) } else st
      | none => st
    { st with log := st.log ++ [AlongLineEvent.recomputeFeature, AlongLineEvent.refreshField,
        AlongLineEvent.getAxisData] }

/-- A call setValue(v) on one of the point 1 spin boxes, whose valueChanged
signal is connected to point1Changed; sel picks the box and put stores it. -/
def setPoint1Box (env : AlongLineEnv) (sel : TaskPostDataAlongLine → QuantitySpinBox)
    (put : TaskPostDataAlongLine → QuantitySpinBox → TaskPostDataAlongLine) (v : ℚ)
    (st : TaskPostDataAlongLine) : TaskPostDataAlongLine :=
  let r := (sel st).setValue v
  let st := put st r.1
  if r.2 then point1Changed env st else st

/-- A call setValue(v) on one of the point 2 spin boxes, whose valueChanged
signal is connected to point2Changed; sel picks the box and put stores it. -/
def setPoint2Box (env : AlongLineEnv) (sel : TaskPostDataAlongLine → QuantitySpinBox)
    (put : TaskPostDataAlongLine → QuantitySpinBox → TaskPostDataAlongLine) (v : ℚ)
    (st : TaskPostDataAlongLine) : TaskPostDataAlongLine :=
  let r := (sel st).setValue v
  let st := put st r.1
  if r.2 then point2Changed env st else st

/-- The slot onChange(x1, y1, z1, x2, y2, z2). -/
def onChange (env : AlongLineEnv) (x1 y1 z1 x2 y2 z2 : ℚ) (st : TaskPostDataAlongLine) :
    TaskPostDataAlongLine :=
  -- call point1Changed only once
  let st := { st with point1X := st.point1X.blockSignals true }
  let st := { st with point1Y := st.point1Y.blockSignals true }
  let st := { st with point1Z := st.point1Z.blockSignals true }
  let st := setPoint1Box env (fun s => s.point1X) (fun s w => { s with point1X := w }) x1 st
  let st := setPoint1Box env (fun s => s.point1Y) (fun s w => { s with point1Y := w }) y1 st
  let st := setPoint1Box env (fun s => s.point1Z) (fun s w => { s with point1Z := w }) z1 st
  let st := { st with point1X := st.point1X.blockSignals false }
  let st := { st with point1Y := st.point1Y.blockSignals false }
  let st := { st with point1Z := st.point1Z.blockSignals false }
  let st := point1Changed env st
  -- same for point 2
  let st := { st with point2X := st.point2X.blockSignals true }
  let st := { st with point2Y := st.point2Y.blockSignals true }
  let st := { st with point2Z := st.point2Z.blockSignals true }
  let st := setPoint2Box env (fun s => s.point2X) (fun s w => { s with point2X := w }) x2 st
  let st := setPoint2Box env (fun s => s.point2Y) (fun s w => { s with point2Y := w }) y2 st
  let st := setPoint2Box env (fun s => s.point2Z) (fun s w => { s with point2Z := w }) z2 st
  let st := { st with point2X := st.point2X.blockSignals false }
  let st := { st with point2Y := st.point2Y.blockSignals false }
  let st := { st with point2Z := st.point2Z.blockSignals false }
  let st := point2Changed env st
  match st.marker with
  | some m =>
    if m.hasView then
      -- leave mode
      { st with log := st.log ++ [AlongLineEvent.leaveEditing] }
    else
      st
  | none => st

end TaskPostDataAlongLine

/-! ## Conversion of a double to int -/

/-- The conversion int(x) of a double: truncation toward zero. -/
def toInt (x : ℚ) : ℤ := if 0 ≤ x then ⌊x⌋ else ⌈x⌉

/-! ## TaskPostScalarClip -/

/-- The bounds of an App::PropertyFloatConstraint. -/
structure Constraints where
  LowerBound : ℚ
  UpperBound : ℚ

/-- An App::PropertyFloatConstraint: a value and its constraints; setValue
stores the value as given. -/
structure PropertyFloatConstraint where
  value : ℚ
  constraints : Constraints

/-- The panel TaskPostScalarClip with the property Value of its filter. -/
structure TaskPostScalarClip where
  /-- The property Value of the filter. -/
  Value : PropertyFloatConstraint
  /-- The value of the spin box ui->Value. -/
  uiValue : ℚ
  /-- The value of the slider ui->Slider. -/
  uiSlider : ℤ
  /-- The number of recompute() calls made. -/
  recomputes : Nat

namespace TaskPostScalarClip

/-- The slot onSliderValueChanged(v).  The spin box is written with its signals
blocked, so no other slot runs. -/
def onSliderValueChanged (v : ℤ) (st : TaskPostScalarClip) : TaskPostScalarClip :=
  let value := st.Value
  let val : ℚ := value.constraints.LowerBound * (1 - (v : ℚ) / 100)
    + (v : ℚ) / 100 * value.constraints.UpperBound
  let st := { st with Value := { value with value := val } }
  let st := { st with recomputes := st.recomputes + 1 }
  -- sync the spinbox
  { st with uiValue := val }

/-- The slot onValueValueChanged(v).  The slider is written with its signals
blocked, so no other slot runs. -/
def onValueValueChanged (v : ℚ) (st : TaskPostScalarClip) : TaskPostScalarClip :=
  let value := st.Value
  let st := { st with Value := { value with value := v } }
  let st := { st with recomputes := st.recomputes + 1 }
  -- sync the slider
  let pos : ℤ := toInt (((v - value.constraints.LowerBound)
    / (value.constraints.UpperBound - value.constraints.LowerBound)) * 100)
  { st with uiSlider := pos }

end TaskPostScalarClip

/-! ## TaskPostWarpVector -/

/-- The panel TaskPostWarpVector with the property Factor of its filter. -/
structure TaskPostWarpVector where
  /-- The property Factor of the filter. -/
  Factor : ℚ
  /-- The value of the spin box ui->Value. -/
  uiValue : ℚ
  /-- The value of the spin box ui->Min. -/
  uiMin : ℚ
  /-- The value of the spin box ui->Max. -/
  uiMax : ℚ
  /-- The value of the slider ui->Slider. -/
  uiSlider : ℤ
  /-- The number of recompute() calls made. -/
  recomputes : Nat

namespace TaskPostWarpVector

/-- The slot onSliderValueChanged(slider_value). -/
def onSliderValueChanged (slider_value : ℤ) (st : TaskPostWarpVector) : TaskPostWarpVector :=
  -- slider changed, change warp factor and sync spinbox
  let warp_factor : ℚ := st.uiMin + ((st.uiMax - st.uiMin) / 100) * (slider_value : ℚ)
  let st := { st with Factor := warp_factor }
  let st := { st with recomputes := st.recomputes + 1 }
  -- sync the spinbox
  { st with uiValue := warp_factor }

/-- The slot onValueValueChanged(warp_factor). -/
def onValueValueChanged (warp_factor : ℚ) (st : TaskPostWarpVector) : TaskPostWarpVector :=
  -- spinbox changed, change warp factor and sync slider
  let st := { st with Factor := warp_factor }
  let st := { st with recomputes := st.recomputes + 1 }
  -- sync the slider, see above for formula
  let slider_value : ℤ := toInt ((warp_factor - st.uiMin) / (st.uiMax - st.uiMin) * 100)
  { st with uiSlider := slider_value }

end TaskPostWarpVector

/-! ## TaskDlgPost -/

/-- An exception raised by a call. -/
inductive Raised where
  /-- A Base::Exception with the given what() text. -/
  | base (what : String)
  /-- An exception that is not a Base::Exception. -/
  | other
  deriving DecidableEq

/-- What a call of the virtual method applyPythonCode does. -/
inductive ApplyOutcome where
  /-- The call returns. -/
  | returns
  /-- The call raises the given exception. -/
  | raises (e : Raised)
  deriving DecidableEq

/-- A TaskPostWidget as the dialog sees it. -/
structure TaskPostWidget where
  /-- Identifies the widget in the log. -/
  ident : Nat
  applyPythonCode : ApplyOutcome
  isGuiTaskOnly : Bool
  deriving DecidableEq

/-- The widget found at groupLayout()->itemAt(0) of a task box. -/
inductive BoxWidget where
  /-- The dynamic cast to TaskPostWidget succeeds. -/
  | post (w : TaskPostWidget)
  /-- The dynamic cast to TaskPostWidget fails. -/
  | unknown
  deriving DecidableEq

/-- An entry of the member Content of the dialog. -/
inductive ContentWidget where
  /-- The dynamic cast to Gui::TaskView::TaskBox succeeds. -/
  | taskBox (first : BoxWidget)
  /-- The dynamic cast to Gui::TaskView::TaskBox fails. -/
  | other
  deriving DecidableEq

/-- What TaskDlgPost::accept does that is visible outside. -/
inductive DlgEvent where
  /-- A call post_widget->applyPythonCode(). -/
  | applyPythonCode (ident : Nat)
  /-- The message box QMessageBox::warning titled "Input error". -/
  | warning (text : String)
  /-- The command resetEdit() on the GUI document. -/
  | resetEdit
  deriving DecidableEq

/-- How a call of accept ends. -/
inductive AcceptResult where
  /-- The call returns the given value. -/
  | returned (b : Bool)
  /-- An exception that is not a Base::Exception leaves the call. -/
  | propagated
  deriving DecidableEq

namespace TaskDlgPost

/-- The loop over Content inside the try block of accept: the log so far, and
the exception that ended the loop early, if one did. -/
def acceptLoop : List ContentWidget → List DlgEvent → List DlgEvent × Option Raised
  | [], log => (log, none)
  | ContentWidget.taskBox (BoxWidget.post w) :: rest, log =>
    let log := log ++ [DlgEvent.applyPythonCode w.ident]
    match w.applyPythonCode with
    | ApplyOutcome.returns => acceptLoop rest log
    | ApplyOutcome.raises e => (log, some e)
  | ContentWidget.taskBox BoxWidget.unknown :: rest, log => acceptLoop rest log
  | ContentWidget.other :: rest, log => acceptLoop rest log

/-- The method accept() on the dialog content: how it ends and what it did. -/
def accept (Content : List ContentWidget) : AcceptResult × List DlgEvent :=
  match acceptLoop Content [] with
  | (log, some (Raised.base what)) =>
    (AcceptResult.returned false, log ++ [DlgEvent.warning what])
  | (log, some Raised.other) => (AcceptResult.propagated, log)
  | (log, none) => (AcceptResult.returned true, log ++ [DlgEvent.resetEdit])

/-- The post widgets on which accept may call applyPythonCode: the first
widgets of the task boxes in Content, in order. -/
def postWidgets : List ContentWidget → List TaskPostWidget
  | [] => []
  | ContentWidget.taskBox (BoxWidget.post w) :: rest => w :: postWidgets rest
  | _ :: rest => postWidgets rest

end TaskDlgPost

/-! ## Vocabulary of the statements -/

/-- Whether an event is a Center command. -/
def AtPointEvent.isCmdCenter : AtPointEvent → Bool
  | AtPointEvent.cmdCenter _ _ _ => true
  | _ => false

/-- Whether an event is a Point1 command. -/
def AlongLineEvent.isCmdPoint1 : AlongLineEvent → Bool
  | AlongLineEvent.cmdPoint1 _ _ _ => true
  | _ => false

/-- Whether an event is a Point2 command. -/
def AlongLineEvent.isCmdPoint2 : AlongLineEvent → Bool
  | AlongLineEvent.cmdPoint2 _ _ _ => true
  | _ => false

/-- The names the unit chain of onFieldActivated compares the field name with
for equality, in the order of the chain. -/
def exactNames : List String :=
  ["von Mises Stress", "Tresca Stress", "Major Principal Stress",
    "Intermediate Principal Stress", "Minor Principal Stress",
    "Major Principal Stress Vector", "Intermediate Principal Stress Vector",
    "Minor Principal Stress Vector", "Stress xx component", "Stress xy component",
    "Stress xz component", "Stress yy component", "Stress yz component",
    "Stress zz component",
    "current density", "current density re", "current density im", "current density abs",
    "Displacement", "Displacement Magnitude",
    "electric energy density",
    "electric field", "electric field re", "electric field im", "electric field abs",
    "electric flux", "electric force density",
    "harmonic loss linear", "harmonic loss quadratic",
    "joule heating", "nodal joule heating",
    "magnetic field strength", "magnetic field strength re", "magnetic field strength im",
    "magnetic field strength abs",
    "magnetic flux density", "magnetic flux density re", "magnetic flux density im",
    "magnetic flux density abs",
    "maxwell stress 1", "maxwell stress 2", "maxwell stress 3", "maxwell stress 4",
    "maxwell stress 5", "maxwell stress 6",
    "maxwell stress re 1", "maxwell stress re 2", "maxwell stress re 3",
    "maxwell stress re 4", "maxwell stress re 5", "maxwell stress re 6",
    "maxwell stress im 1", "maxwell stress im 2", "maxwell stress im 3",
    "maxwell stress im 4", "maxwell stress im 5", "maxwell stress im 6",
    "nodal force",
    "potential", "potential re", "potential im", "potential abs",
    "av", "av re", "av im", "av abs",
    "potential flux", "potential loads",
    "Temperature", "temperature flux"]

/-- The texts the unit chain of onFieldActivated looks for at the beginning of
the field name. -/
def beginNames : List String :=
  ["tresca", "vonmises", "stress_", "principal stress", "displacement", "temperature"]

/-- The calls the loop of accept makes on the given widgets. -/
def calls (ws : List TaskPostWidget) : List DlgEvent :=
  ws.map (fun w => DlgEvent.applyPythonCode w.ident)

/-! ## Sample inputs -/

/-- A data-at-point panel showing a displacement, with the given text in the
field combo box. -/
def sampleAtPoint (fieldText : String) : TaskPostDataAtPoint :=
  { viewField := 0, fieldText := fieldText, FieldName := "Displacement", Unit := "m",
    pointData0 := 5 / 2, ValueAtPoint := none,
    centerX := { value := 0, signalsBlocked := false },
    centerY := { value := 0, signalsBlocked := false },
    centerZ := { value := 0, signalsBlocked := false },
    hasViewer := true, log := [] }

/-- A host environment for the data-at-point panel. -/
def sampleAtPointEnv : AtPointEnv := { decimals := 2, centerCommandRaises := false }

/-- A scalar clip panel with bounds 2 and 12. -/
def sampleScalarClip : TaskPostScalarClip :=
  { Value := { value := 3, constraints := { LowerBound := 2, UpperBound := 12 } },
    uiValue := 3, uiSlider := 10, recomputes := 0 }

/-- A warp vector panel with minimum 1/10 and maximum 10. -/
def sampleWarpVector : TaskPostWarpVector :=
  { Factor := 1, uiValue := 1, uiMin := 1 / 10, uiMax := 10, uiSlider := 9, recomputes := 0 }

/-- A dialog content whose second post widget raises a Base::Exception. -/
def sampleContent : List ContentWidget :=
  [ContentWidget.taskBox (BoxWidget.post
      { ident := 1, applyPythonCode := ApplyOutcome.returns, isGuiTaskOnly := false }),
    ContentWidget.other,
    ContentWidget.taskBox (BoxWidget.post
      { ident := 2, applyPythonCode := ApplyOutcome.raises (Raised.base "bad input"),
        isGuiTaskOnly := false }),
    ContentWidget.taskBox (BoxWidget.post
      { ident := 3, applyPythonCode := ApplyOutcome.returns, isGuiTaskOnly := true })]

/-! ## TaskDlgPost::getStandardButtons -/

/-- A button of QDialogButtonBox. -/
inductive StandardButton where
  | Apply
  | Ok
  | Cancel
  deriving DecidableEq, Repr

namespace TaskDlgPost

/-- The loop of getStandardButtons over Content, starting from the given
value of guionly. -/
def guiOnlyLoop : List ContentWidget → Bool → Bool
  | [], guionly => guionly
  | ContentWidget.taskBox (BoxWidget.post post_widget) :: rest, guionly =>
    guiOnlyLoop rest (guionly && post_widget.isGuiTaskOnly)
  | ContentWidget.taskBox BoxWidget.unknown :: rest, _ =>
    -- unknown panel, we can only assume
    guiOnlyLoop rest false
  | ContentWidget.other :: rest, guionly => guiOnlyLoop rest guionly

/-- The method getStandardButtons(): the buttons or-ed together. -/
def getStandardButtons (Content : List ContentWidget) : List StandardButton :=
  let guionly := guiOnlyLoop Content true
  if !guionly then
    [StandardButton.Apply, StandardButton.Ok, StandardButton.Cancel]
  else
    [StandardButton.Ok]

end TaskDlgPost

/-! ## TaskPostClip and TaskPostCut: the function box -/

/-- A combo box: its entries and the current index, which is -1 when no entry
is current. -/
structure QComboBox where
  items : List String
  currentIndex : Int
  deriving DecidableEq

namespace QComboBox

/-- The call count(). -/
def count (b : QComboBox) : Int := b.items.length

/-- The call clear(). -/
def clear (_b : QComboBox) : QComboBox := { items := [], currentIndex := -1 }

/-- The call addItems(items): the first entry of a box that was empty becomes
the current one. -/
def addItems (b : QComboBox) (items : List String) : QComboBox :=
  let all := b.items ++ items
  { items := all,
    currentIndex := if b.currentIndex < 0 ∧ all ≠ [] then 0 else b.currentIndex }

/-- The call setCurrentIndex(i): an index outside the entries leaves no entry
current. -/
def setCurrentIndex (b : QComboBox) (i : Int) : QComboBox :=
  { b with currentIndex := if 0 ≤ i ∧ i < b.count then i else -1 }

/-- The signal currentIndexChanged(int) of a call that turned the box before
into the box after: it is emitted, with the new index, when the current index
changed. -/
def currentIndexChanged (before after : QComboBox) : Option Int :=
  if after.currentIndex ≠ before.currentIndex then some after.currentIndex else none

end QComboBox

/-- A clip or cut panel with the property Function of its filter and the
document it lives in. -/
structure FunctionPanel where
  /-- The combo box ui->FunctionBox. -/
  FunctionBox : QComboBox
  /-- The property Function of the filter: the name of the linked function,
  none for a null link. -/
  Function : Option String
  /-- The names of the objects in the Group of the function provider of the
  first pipeline; none when there is no pipeline or no provider. -/
  providerGroup : Option (List String)
  /-- The function whose control widget the member fwidget shows; none when
  there is no control widget. -/
  fwidget : Option String
  /-- How often emitAddedFunction() was emitted. -/
  emittedAddedFunction : Nat
  /-- The number of recompute() calls made. -/
  recomputes : Nat
  deriving DecidableEq

/-- The loop of collectImplicitFunctions that looks for the current function:
the running index, the index found so far, and the functions left. -/
def currentItemLoop (currentFunction : Option String) :
    List String → Nat → Nat → Nat
  | [], _, currentItem => currentItem
  | f :: rest, i, currentItem =>
    currentItemLoop currentFunction rest (i + 1)
      (if currentFunction = some f then i else currentItem)

namespace TaskPostClip

/-- The slot onFunctionBoxCurrentIndexChanged(idx), connected to the signal
currentIndexChanged of the function box by setupConnections().  Every function
is taken to have a view provider. -/
def onFunctionBoxCurrentIndexChanged (idx : Int) (st : FunctionPanel) : FunctionPanel :=
  -- set the correct property
  let st :=
    match st.providerGroup with
    | some funcs =>
      if idx ≥ 0 then { st with Function := funcs.get? idx.toNat }
      else { st with Function := none }
    | none => st
  -- load the correct view
  let st := { st with fwidget := st.Function }
  { st with recomputes := st.recomputes + 1 }

/-- A call on ui->FunctionBox together with the slot its signal runs. -/
def onFunctionBox (call : QComboBox → QComboBox) (st : FunctionPanel) : FunctionPanel :=
  let before := st.FunctionBox
  let st := { st with FunctionBox := call before }
  match QComboBox.currentIndexChanged before st.FunctionBox with
  | some idx => onFunctionBoxCurrentIndexChanged idx st
  | none => st

/-- The method collectImplicitFunctions(). -/
def collectImplicitFunctions (st : FunctionPanel) : FunctionPanel :=
  match st.providerGroup with
  | some funcs =>
    let st := onFunctionBox QComboBox.clear st
    let currentFunction := st.Function
    let currentItem := currentItemLoop currentFunction funcs 0 0
    let st := onFunctionBox (fun box => box.addItems funcs) st
    onFunctionBox (fun box => box.setCurrentIndex currentItem) st
  | none => st

/-- The slot onCreateButtonTriggered(QAction*). -/
def onCreateButtonTriggered (st : FunctionPanel) : FunctionPanel :=
  let numFuncs := st.FunctionBox.count
  let currentItem := st.FunctionBox.currentIndex
  let st := collectImplicitFunctions st
  -- if a new function was successfully added use it
  let indexCount := st.FunctionBox.count
  let st :=
    if indexCount > currentItem + 1 then
      onFunctionBox (fun box => box.setCurrentIndex (indexCount - 1)) st
    else st
  -- When the first function ever was added, a signal must be emitted
  let st :=
    if numFuncs = 0 then { st with emittedAddedFunction := st.emittedAddedFunction + 1 }
    else st
  { st with recomputes := st.recomputes + 1 }

end TaskPostClip

namespace TaskPostCut

/-- The slot onFunctionBoxCurrentIndexChanged(idx), connected to the signal
currentIndexChanged of the function box by setupConnections().  Every function
is taken to have a view provider. -/
def onFunctionBoxCurrentIndexChanged (idx : Int) (st : FunctionPanel) : FunctionPanel :=
  -- set the correct property
  let st :=
    match st.providerGroup with
    | some funcs =>
      if idx ≥ 0 then { st with Function := funcs.get? idx.toNat }
      else { st with Function := none }
    | none => st
  -- load the correct view
  let st := { st with fwidget := st.Function }
  { st with recomputes := st.recomputes + 1 }

/-- A call on ui->FunctionBox together with the slot its signal runs. -/
def onFunctionBox (call : QComboBox → QComboBox) (st : FunctionPanel) : FunctionPanel :=
  let before := st.FunctionBox
  let st := { st with FunctionBox := call before }
  match QComboBox.currentIndexChanged before st.FunctionBox with
  | some idx => onFunctionBoxCurrentIndexChanged idx st
  | none => st

/-- The method collectImplicitFunctions(). -/
def collectImplicitFunctions (st : FunctionPanel) : FunctionPanel :=
  match st.providerGroup with
  | some funcs =>
    let st := onFunctionBox QComboBox.clear st
    let currentFunction := st.Function
    let currentItem := currentItemLoop currentFunction funcs 0 0
    let st := onFunctionBox (fun box => box.addItems funcs) st
    onFunctionBox (fun box => box.setCurrentIndex currentItem) st
  | none => st

/-- The slot onCreateButtonTriggered(QAction*). -/
def onCreateButtonTriggered (st : FunctionPanel) : FunctionPanel :=
  let numFuncs := st.FunctionBox.count
  let currentItem := st.FunctionBox.currentIndex
  let st := collectImplicitFunctions st
  -- if a new function was successfully added use it
  let indexCount := st.FunctionBox.count
  let st :=
    if indexCount > currentItem + 1 then
      onFunctionBox (fun box => box.setCurrentIndex (indexCount - 1)) st
    else st
  -- When the first function ever was added, a signal must be emitted
  let st :=
    if numFuncs = 0 then { st with emittedAddedFunction := st.emittedAddedFunction + 1 }
    else st
  { st with recomputes := st.recomputes + 1 }

end TaskPostCut

/-! ## TaskPostDataAlongLine::pointCallback -/

/-- The button of a mouse button event. -/
inductive MouseButton where
  | ANY
  | BUTTON1
  | BUTTON2
  | BUTTON3
  | BUTTON4
  | BUTTON5
  deriving DecidableEq, Repr

/-- The state of the button of a mouse button event. -/
inductive ButtonState where
  | UP
  | DOWN
  | UNKNOWN
  deriving DecidableEq, Repr

/-- A mouse button event as the callback sees it, with the point picked under
the cursor, none when getPickedPoint() is null. -/
structure MouseButtonEvent where
  button : MouseButton
  state : ButtonState
  pickedPoint : Option (ℚ × ℚ × ℚ)

/-- What pointCallback does besides changing the marker. -/
inductive PickEvent where
  /-- The console message "No point picked.". -/
  | messageNoPoint
  /-- The QEvent::User event posted to the marker, which publishes the points. -/
  | postEvent
  /-- Leaving the picking mode: the callback is removed and the signal
  disconnected. -/
  | leaveEditing
  deriving DecidableEq

/-- The marker during picking and what the callback has done so far. -/
structure PickSession where
  marker : PointMarker
  log : List PickEvent

namespace PointMarker

/-- The method addPoint(pt): the point is stored at index countPoints(). -/
def addPoint (pm : PointMarker) (pt : ℚ × ℚ × ℚ) : PointMarker :=
  { pm with points := pm.points ++ [pt] }

end PointMarker

namespace TaskPostDataAlongLine

/-- The callback pointCallback(ud, n) on the marker ud for the event of n. -/
def pointCallback (mbe : MouseButtonEvent) (s : PickSession) : PickSession :=
  if mbe.button = MouseButton.BUTTON1 ∧ mbe.state = ButtonState.DOWN then
    match mbe.pickedPoint with
    | none => { s with log := s.log ++ [PickEvent.messageNoPoint] }
    | some point =>
      let s :=
        if s.marker.countPoints < 2 then { s with marker := s.marker.addPoint point } else s
      if s.marker.countPoints = 2 then
        { s with log := s.log ++ [PickEvent.postEvent] }
      else s
  else if mbe.button = MouseButton.BUTTON2 ∧ mbe.state = ButtonState.UP then
    { s with log := s.log ++ [PickEvent.leaveEditing] }
  else s

/-- The callback run on a sequence of mouse button events. -/
def pointCallbacks (events : List MouseButtonEvent) (s : PickSession) : PickSession :=
  events.foldl (fun acc mbe => pointCallback mbe acc) s

end TaskPostDataAlongLine

/-! ## Further sample inputs -/

/-- A data-along-line panel without a marker. -/
def sampleAlongLine : TaskPostDataAlongLine :=
  { point1X := { value := 1, signalsBlocked := false },
    point1Y := { value := 2, signalsBlocked := false },
    point1Z := { value := 3, signalsBlocked := false },
    point2X := { value := 4, signalsBlocked := false },
    point2Y := { value := 5, signalsBlocked := false },
    point2Z := { value := 6, signalsBlocked := false },
    marker := none, log := [] }

/-- A host environment in which both point commands raise a Base::Exception. -/
def sampleAlongLineEnvRaising : AlongLineEnv :=
  { toFloat := fun x => x, point1CommandRaises := true, point2CommandRaises := true }

/-- A clip or cut panel whose box is empty, in a document without functions. -/
def sampleEmptyPanel : FunctionPanel :=
  { FunctionBox := { items := [], currentIndex := -1 }, Function := none,
    providerGroup := some [], fwidget := none, emittedAddedFunction := 0, recomputes := 0 }

/-- A clip panel with three functions, the first of which is the current
function of the filter and the current entry of the box. -/
def sampleThreeFunctions : FunctionPanel :=
  { FunctionBox := { items := ["Plane", "Sphere", "Box"], currentIndex := 0 },
    Function := some "Plane", providerGroup := some ["Plane", "Sphere", "Box"],
    fwidget := some "Plane", emittedAddedFunction := 0, recomputes := 0 }

/-- A clip panel with three functions, the second of which is the current
function of the filter and the current entry of the box. -/
def sampleSecondCurrent : FunctionPanel :=
  { FunctionBox := { items := ["Plane", "Sphere", "Box"], currentIndex := 1 },
    Function := some "Sphere", providerGroup := some ["Plane", "Sphere", "Box"],
    fwidget := some "Sphere", emittedAddedFunction := 0, recomputes := 0 }

/-- A dialog content with a GUI-only post widget and an unknown panel. -/
def sampleUnknownContent : List ContentWidget :=
  [ContentWidget.taskBox (BoxWidget.post
      { ident := 1, applyPythonCode := ApplyOutcome.returns, isGuiTaskOnly := true }),
    ContentWidget.taskBox BoxWidget.unknown]

/-- Three left presses on the mesh, one beside it, and a right release. -/
def sampleMouseEvents : List MouseButtonEvent :=
  [{ button := MouseButton.BUTTON1, state := ButtonState.DOWN, pickedPoint := some (0, 0, 0) },
    { button := MouseButton.BUTTON1, state := ButtonState.DOWN, pickedPoint := none },
    { button := MouseButton.BUTTON1, state := ButtonState.DOWN, pickedPoint := some (1, 0, 0) },
    { button := MouseButton.BUTTON1, state := ButtonState.DOWN, pickedPoint := some (2, 0, 0) },
    { button := MouseButton.BUTTON2, state := ButtonState.UP, pickedPoint := none }]

/-- A picking session that starts with an empty marker. -/
def samplePickSession : PickSession :=
  { marker := { points := [], hasView := true }, log := [] }

end FemGui

/-! # The selection view (Gui/Selection/SelectionView.cpp) -/

namespace Gui

/-! ## The application as the selection view sees it -/

/-- A document object: its name in the document and its Label. -/
structure DocumentObject where
  name : String
  label : String
  deriving DecidableEq, Repr

/-- A document: its name, its Label and its objects in document order. -/
structure Document where
  name : String
  label : String
  objects : List DocumentObject
  deriving DecidableEq, Repr

/-- The call doc->getObject(name); none is the null pointer. -/
def Document.getObject (doc : Document) (name : String) : Option DocumentObject :=
  doc.objects.find? (fun o => o.name = name)

/-- The pair of element names filled in by App::GeoFeature::resolveElement. -/
structure ElementNamePair where
  newName : String
  oldName : String

/-- An entry of the selection or of the picked list. -/
structure SelObj where
  DocName : String
  FeatName : String
  SubName : String
  x : ℚ
  y : ℚ
  z : ℚ

/-- A Base::Type: the bad type, or a type with its name and its parent. -/
inductive BaseType where
  | bad
  | type (name : String) (parent : BaseType)

/-- The host application: what the selection view reads from the application,
the selection singleton, the type system and the text functions of the
toolkit. -/
structure App where
  documents : List Document
  /-- The call getActiveDocument(); none is the null pointer. -/
  activeDocument : Option Document
  /-- The selected items held by the selection singleton. -/
  selection : List SelObj
  /-- The call Selection().getSelection(docName, ResolveMode::NoResolve). -/
  getSelection : String → List SelObj
  /-- The call Selection().needPickedList(). -/
  needPickedList : Bool
  /-- The call Selection().getPickedList(docName). -/
  getPickedList : String → List SelObj
  /-- The preference AutoShowSelectionView. -/
  autoShow : Bool
  /-- The call App::GeoFeature::resolveElement(obj, subName, elementName). -/
  resolveElement : DocumentObject → String → ElementNamePair
  /-- The call obj->getSubObject(subName); none is the null pointer. -/
  getSubObject : DocumentObject → String → Option DocumentObject
  /-- The call label.contains(text, Qt::CaseInsensitive). -/
  contains : String → String → Bool
  /-- The case folding of a character used by case-insensitive matching. -/
  foldCase : Char → Char
  /-- The call Base::Type::fromName(type). -/
  fromName : String → BaseType

/-- The call App::GetApplication().getDocument(name); none is the null pointer. -/
def App.getDocument (app : App) (name : String) : Option Document :=
  app.documents.find? (fun d => d.name = name)

/-- The call Selection().hasSelection(). -/
def App.hasSelection (app : App) : Bool := !app.selection.isEmpty

/-! ## The widgets of the view -/

/-- An item of a list widget: its text and its Qt::UserRole data. -/
structure QListWidgetItem where
  text : String
  data : List String
  deriving DecidableEq, Repr

/-- The test of QListWidget::findItems(text, Qt::MatchStartsWith) on one item.
The flag Qt::MatchCaseSensitive is not given, and without it the string based
match flags compare case-insensitively. -/
def matchStartsWith (foldCase : Char → Char) (itemText text : String) : Bool :=
  (text.data.map foldCase).isPrefixOf (itemText.data.map foldCase)

/-- The call QString::number(n) for a count. -/
def number (n : Nat) : String := Nat.repr n

/-- The kind of a selection change. -/
inductive MsgType where
  | AddSelection
  | RmvSelection
  | SetSelection
  | ClrSelection
  | PickedListChanged
  /-- Every other kind, such as the preselection messages. -/
  | other
  deriving DecidableEq, Repr

/-- The message SelectionChanges; a null sub-element name is the empty text. -/
structure SelectionChanges where
  type : MsgType
  pDocName : String
  pObjectName : String
  pSubName : String

/-- The dock window SelectionView. -/
structure SelectionView where
  /-- The items of the list widget selectionView. -/
  selectionView : List QListWidgetItem
  /-- The items of the list widget pickList. -/
  pickList : List QListWidgetItem
  pickListVisible : Bool
  /-- Whether the check box enablePickList is checked. -/
  enablePickList : Bool
  /-- The text of the label countLabel. -/
  countLabel : String
  searchList : List DocumentObject
  x : ℚ
  y : ℚ
  z : ℚ
  openedAutomatically : Bool
  /-- Whether parentWidget() is visible. -/
  parentVisible : Bool

namespace SelectionView

/-- The view as the constructor leaves it. -/
def constructed (parentVisible : Bool) : SelectionView :=
  { selectionView := [], pickList := [], pickListVisible := false, enablePickList := false,
    countLabel := "0", searchList := [], x := 0, y := 0, z := 0,
    openedAutomatically := false, parentVisible := parentVisible }

/-- The lambda getSelectionName of onSelectionChanged: the text of the stream
after the name was written to it. -/
def getSelectionName (app : App) (str docName objName subName : String)
    (obj : DocumentObject) : String :=
  let str := str ++ docName
  let str := str ++ "#"
  let str := str ++ objName
  let r : String × DocumentObject :=
    if subName ≠ "" then
      let str := str ++ "."
      -- Remove the history from the displayed subelement name
      let elementName := app.resolveElement obj subName
      let str := str ++ elementName.oldName
      let str := if elementName.newName.length > 0 then str ++ " []" else str
      match app.getSubObject obj subName with
      | some subObj => (str, subObj)
      | none => (str, obj)
    else (str, obj)
  let str := r.1 ++ " ("
  let str := str ++ r.2.label
  str ++ ")"

/-- The loop of the SetSelection branch; none when a null document or object
is dereferenced. -/
def setSelectionLoop (app : App) :
    List SelObj → List QListWidgetItem → Option (List QListWidgetItem)
  | [], items => some items
  | it :: rest, items =>
    match app.getDocument it.DocName with
    | none => none
    | some doc =>
      match doc.getObject it.FeatName with
      | none => none
      | some obj =>
        let selObject := getSelectionName app "" it.DocName it.FeatName it.SubName obj
        setSelectionLoop app rest
          (items ++ [{ text := selObject, data := [it.DocName, it.FeatName] }])

/-- The loop of the PickedListChanged branch. -/
def pickedListLoop (app : App) : List SelObj → SelectionView → SelectionView
  | [], v => v
  | sel :: rest, v =>
    match app.getDocument sel.DocName with
    | none => pickedListLoop app rest v
    | some doc =>
      match doc.getObject sel.FeatName with
      | none => pickedListLoop app rest v
      | some obj =>
        let selObject := getSelectionName app "" sel.DocName sel.FeatName sel.SubName obj
        let v := { v with x := sel.x, y := sel.y, z := sel.z }
        pickedListLoop app rest
          { v with pickList := v.pickList ++ [{ text := selObject, data := [] }] }

/-- The part of onSelectionChanged that shows or hides the parent widget. -/
def autoShowStep (app : App) (v : SelectionView) : SelectionView :=
  if app.autoShow then
    if !v.parentVisible && app.hasSelection then
      { v with parentVisible := true, openedAutomatically := true }
    else if v.openedAutomatically && !app.hasSelection then
      { v with parentVisible := false, openedAutomatically := false }
    else v
  else v

/-- The branches of onSelectionChanged on the kind of the change; none when a
null document or object is dereferenced. -/
def selectionBranch (app : App) (Reason : SelectionChanges) (v : SelectionView) :
    Option SelectionView :=
  match Reason.type with
  | MsgType.AddSelection =>
    match app.getDocument Reason.pDocName with
    | none => none
    | some doc =>
      match doc.getObject Reason.pObjectName with
      | none => none
      | some obj =>
        let selObject :=
          getSelectionName app "" Reason.pDocName Reason.pObjectName Reason.pSubName obj
        -- insert the selection as item
        some { v with selectionView := v.selectionView
          ++ [{ text := selObject, data := [Reason.pDocName, Reason.pObjectName] }] }
  | MsgType.ClrSelection =>
    if Reason.pDocName = "" then
      -- remove all items
      some { v with selectionView := [] }
    else
      -- build name
      let selObject := "" ++ Reason.pDocName ++ "#"
      -- remove all items
      let kept := v.selectionView.filter
        (fun item => !matchStartsWith app.foldCase item.text selObject)
      some { v with selectionView := kept }
  | MsgType.RmvSelection =>
    match app.getDocument Reason.pDocName with
    | none => none
    | some doc =>
      match doc.getObject Reason.pObjectName with
      | none => none
      | some obj =>
        let selObject :=
          getSelectionName app "" Reason.pDocName Reason.pObjectName Reason.pSubName obj
        let l := v.selectionView.filter
          (fun item => matchStartsWith app.foldCase item.text selObject)
        if l.length = 1 then
          let kept := v.selectionView.filter
            (fun item => !matchStartsWith app.foldCase item.text selObject)
          some { v with selectionView := kept }
        else some v
  | MsgType.SetSelection =>
    -- remove all items
    match setSelectionLoop app (app.getSelection Reason.pDocName) [] with
    | none => none
    | some items => some { v with selectionView := items }
  | MsgType.PickedListChanged =>
    let picking := app.needPickedList
    let v := { v with enablePickList := picking, pickListVisible := picking, pickList := [] }
    if picking then some (pickedListLoop app (app.getPickedList Reason.pDocName) v)
    else some v
  | MsgType.other => some v

/-- The method onSelectionChanged(Reason); none when a null document or object
is dereferenced. -/
def onSelectionChanged (app : App) (Reason : SelectionChanges) (v : SelectionView) :
    Option SelectionView :=
  let v := autoShowStep app v
  match selectionBranch app Reason v with
  | none => none
  | some v => some { v with countLabel := number v.selectionView.length }

/-- The loop of search over the objects of the active document. -/
def searchLoop (app : App) (doc : Document) (text : String) :
    List DocumentObject → SelectionView → SelectionView
  | [], v => v
  | it :: rest, v =>
    let label := it.label
    if app.contains label text then
      let v := { v with searchList := v.searchList ++ [it] }
      -- build name
      let selObject := "" ++ doc.label ++ "#" ++ it.name ++ " (" ++ label ++ ")"
      searchLoop app doc text rest
        { v with selectionView := v.selectionView
          ++ [{ text := selObject, data := [doc.name, it.name] }] }
    else searchLoop app doc text rest v

/-- The slot search(text). -/
def search (app : App) (text : String) (v : SelectionView) : SelectionView :=
  if text ≠ "" then
    let v := { v with searchList := [] }
    match app.activeDocument with
    | some doc =>
      let objects := doc.objects
      let v := { v with selectionView := [] }
      let v := searchLoop app doc text objects v
      { v with countLabel := number v.selectionView.length }
    | none => v
  else v

/-- The first position, counted from the running index, of the remaining text
that holds one of the characters. -/
def findFirstOfAux (chars : List Char) : List Char → Nat → Option Nat
  | [], _ => none
  | c :: t, i => if chars.contains c then some i else findFirstOfAux chars t (i + 1)

/-- The call temp.find_first_of(chars): the first position holding one of the
characters; none is npos. -/
def find_first_of (temp chars : String) : Option Nat :=
  findFirstOfAux chars.data temp.data 0

/-- The module text computed in the loop of getModule for a type name. -/
def moduleOf (temp : String) : String :=
  match find_first_of temp "::" with
  | some pos => String.mk (temp.data.take pos)
  | none => ""

/-- The loop of getModule from the given type and value of the variable
named after the module text kept so far. -/
def getModuleLoop : BaseType → String → String
  | BaseType.bad, kept => kept
  | BaseType.type name parent, kept =>
    let module := moduleOf name
    if module ≠ "App" then getModuleLoop parent module else kept

/-- The method getModule(type). -/
def getModule (app : App) (type : String) : String :=
  getModuleLoop (app.fromName type) ""

end SelectionView

/-! ## Vocabulary of the statements about the selection view -/

/-- A call of one of the two methods that write the count label. -/
inductive Call where
  | onSelectionChanged (app : App) (Reason : SelectionChanges)
  | search (app : App) (text : String)

/-- A sequence of calls on a view; none when a call dereferences a null
document or object. -/
def runCalls : List Call → SelectionView → Option SelectionView
  | [], v => some v
  | Call.onSelectionChanged app Reason :: rest, v =>
    match SelectionView.onSelectionChanged app Reason v with
    | none => none
    | some w => runCalls rest w
  | Call.search app text :: rest, v => runCalls rest (SelectionView.search app text v)

/-- The names of a type and of its ancestors, from the type upwards. -/
def BaseType.lineage : BaseType → List String
  | BaseType.bad => []
  | BaseType.type name parent => name :: BaseType.lineage parent

/-- The item that search builds for an object of a document. -/
def searchItem (doc : Document) (obj : DocumentObject) : QListWidgetItem :=
  { text := doc.label ++ "#" ++ obj.name ++ " (" ++ obj.label ++ ")",
    data := [doc.name, obj.name] }

/-! ## Sample inputs for the selection view -/

/-- Case-insensitive containment on ASCII letters. -/
def sampleContains (label text : String) : Bool :=
  decide (text.data.map Char.toLower <:+: label.data.map Char.toLower)

/-- A document named Part with a box and a cylinder. -/
def samplePartDoc : Document :=
  { name := "Part", label := "Part",
    objects := [{ name := "Box", label := "Box" }, { name := "Cylinder", label := "Tube" }] }

/-- A document named part, in lower case, with a cone. -/
def sampleLowerDoc : Document :=
  { name := "part", label := "part", objects := [{ name := "Cone", label := "Cone" }] }

/-- An application with the two sample documents and nothing selected. -/
def sampleApp : App :=
  { documents := [samplePartDoc, sampleLowerDoc],
    activeDocument := some samplePartDoc,
    selection := [], getSelection := fun _ => [],
    needPickedList := false, getPickedList := fun _ => [],
    autoShow := false,
    resolveElement := fun _ sub => { newName := "", oldName := sub },
    getSubObject := fun _ _ => none,
    contains := sampleContains,
    foldCase := Char.toLower,
    fromName := fun name =>
      if name = "PartDesign::Pad" then
        BaseType.type "PartDesign::Pad" (BaseType.type "Part::Feature"
          (BaseType.type "App::GeoFeature" (BaseType.type "App::DocumentObject"
            BaseType.bad)))
      else BaseType.bad }

/-- A selection, a search and a deselection on the sample application. -/
def sampleCalls : List Call :=
  [Call.onSelectionChanged sampleApp
      { type := MsgType.AddSelection, pDocName := "Part", pObjectName := "Box",
        pSubName := "Face1" },
    Call.search sampleApp "u",
    Call.onSelectionChanged sampleApp
      { type := MsgType.RmvSelection, pDocName := "Part", pObjectName := "Box",
        pSubName := "" }]

/-- A view listing one selected object of the document part and one of the
document Part. -/
def sampleTwoDocView : SelectionView :=
  { SelectionView.constructed true with
    selectionView :=
      [{ text := "part#Cone (Cone)", data := ["part", "Cone"] },
        { text := "Part#Box (Box)", data := ["Part", "Box"] }],
    countLabel := "2" }

/-- The selection of the face Face1 of the box of the document Part. -/
def sampleAddFace : SelectionChanges :=
  { type := MsgType.AddSelection, pDocName := "Part", pObjectName := "Box",
    pSubName := "Face1" }

end Gui

namespace FemGui

/-! ## Facts about find -/

/-- A match found by findAux lies at or after the running index. -/
theorem findAux_ge (pat : List Char) : ∀ (l : List Char) (i j : Nat),
    findAux pat l i = some j → i ≤ j := by
  intro l
  induction l with
  | nil =>
    intro i j h
    simp only [findAux] at h
    split at h
    · simp only [Option.some.injEq] at h; omega
    · simp at h
  | cons c t ih =>
    intro i j h
    simp only [findAux] at h
    split at h
    · simp only [Option.some.injEq] at h; omega
    · have := ih (i + 1) j h; omega

/-- The test s.find(pat, 0) == 0 holds exactly when s begins with pat. -/
theorem find_zero_iff (s pat : String) :
    find s pat 0 = some 0 ↔ pat.data <+: s.data := by
  rw [← List.isPrefixOf_iff_prefix]
  unfold find
  simp only [Nat.zero_le, if_true, List.drop_zero]
  cases hs : s.data with
  | nil => simp [findAux]
  | cons c t =>
    simp only [findAux]
    split
    · simp [*]
    · rename_i hp
      simp only [hp]
      constructor
      · intro h; have := findAux_ge _ _ _ _ h; omega
      · intro h; simp at h

/-- A text that begins with p shares the first k characters of p. -/
theorem take_of_isPrefix (p s : List Char) (h : p <+: s) (k : Nat) (hk : k ≤ p.length) :
    s.take k = p.take k := by
  obtain ⟨t, rfl⟩ := h
  exact List.take_append_of_le_length hk

/-- A text is told apart from a literal by its first k characters. -/
theorem eq_false_of_take (s : String) (k : Nat) (l : List Char) (hs : s.data.take k = l)
    (n : String) (hn : n.data.take k ≠ l) : (s = n) = False := by
  simp only [eq_iff_iff, iff_false]
  intro h
  exact hn (h ▸ hs)

/-- A text does not begin with a pattern whose first k characters differ. -/
theorem isPrefix_false_of_take (s : String) (k : Nat) (l : List Char)
    (hs : s.data.take k = l) (p : String) (hk : k ≤ p.data.length)
    (hp : p.data.take k ≠ l) : (p.data <+: s.data) = False := by
  simp only [eq_iff_iff, iff_false]
  intro h
  exact hp ((take_of_isPrefix _ _ h k hk).symm.trans hs)

/-! ## The unit chain -/

/-- For a field name other than "None" the unit written by onFieldActivated is
the one the chain chooses. -/
theorem onFieldActivated_unit (env : AtPointEnv) (i : Int) (st : TaskPostDataAtPoint)
    (h : st.fieldText ≠ "None") :
    (TaskPostDataAtPoint.onFieldActivated env i st).Unit
      = TaskPostDataAtPoint.unitChain st.fieldText := by
  simp [TaskPostDataAtPoint.onFieldActivated, TaskPostDataAtPoint.showValue, h]

/-- A name beginning with one of the four Elmer stress texts is not "None" and
gets "Pa" from the chain. -/
theorem unitChain_of_begins_pa (s p : String)
    (hp : p = "tresca" ∨ p = "vonmises" ∨ p = "stress_" ∨ p = "principal stress")
    (h : p.data <+: s.data) : s ≠ "None" ∧ TaskPostDataAtPoint.unitChain s = "Pa" := by
  have hk : s.data.take 1 = p.data.take 1 := by
    apply take_of_isPrefix _ _ h
    rcases hp with rfl | rfl | rfl | rfl <;> decide
  constructor
  · intro hs
    subst hs
    rcases hp with rfl | rfl | rfl | rfl <;> exact absurd hk (by decide)
  · have h2 : find s "tresca" 0 = some 0 ∨ find s "vonmises" 0 = some 0
        ∨ find s "stress_" 0 = some 0 ∨ find s "principal stress" 0 = some 0 := by
      simp only [find_zero_iff]
      rcases hp with rfl | rfl | rfl | rfl <;> simp [h]
    unfold TaskPostDataAtPoint.unitChain
    rw [if_pos h2]
    split <;> rfl

/-- A name beginning with "temperature", other than "temperature flux", is not
"None" and reaches the branch that chooses "K". -/
theorem unitChain_temperature (s : String) (h : "temperature".data <+: s.data)
    (hne : s ≠ "temperature flux") : s ≠ "None" ∧ TaskPostDataAtPoint.unitChain s = "K" := by
  have hk : s.data.take 2 = ['t', 'e'] := take_of_isPrefix _ _ h 2 (by decide)
  constructor
  · intro hs; subst hs; exact absurd hk (by decide)
  · unfold TaskPostDataAtPoint.unitChain
    simp (disch := decide) only [find_zero_iff, eq_false_of_take s 2 _ hk,
      isPrefix_false_of_take s 2 _ hk, or_self, if_false]
    simp [h, hne]

/-- A name outside the listed names and beginnings reaches the final else. -/
theorem unitChain_unlisted (s : String) (hex : s ∉ exactNames)
    (hpre : ∀ p ∈ beginNames, ¬ p.data <+: s.data) :
    TaskPostDataAtPoint.unitChain s = "" := by
  simp only [exactNames, List.mem_cons, List.mem_singleton, List.not_mem_nil, not_or,
    or_false] at hex
  simp only [beginNames, List.mem_cons, List.mem_singleton, List.not_mem_nil, or_false,
    forall_eq_or_imp, forall_eq, false_imp_iff, implies_true, and_true] at hpre
  unfold TaskPostDataAtPoint.unitChain
  simp only [find_zero_iff, hex, hpre, or_self, false_and, if_false]

/-- C1: for every field name that equals one of the fourteen CalculiX stress
names, or that begins with "tresca", "vonmises", "stress_" or "principal stress",
onFieldActivated sets the Unit of the filter to "Pa", whatever the rest of the
panel state is. -/
theorem onFieldActivated_stress_unit_Pa (env : AtPointEnv) (i : Int)
    (st : TaskPostDataAtPoint)
    (h : st.fieldText ∈ ["von Mises Stress", "Tresca Stress", "Major Principal Stress",
          "Intermediate Principal Stress", "Minor Principal Stress",
          "Major Principal Stress Vector", "Intermediate Principal Stress Vector",
          "Minor Principal Stress Vector", "Stress xx component", "Stress xy component",
          "Stress xz component", "Stress yy component", "Stress yz component",
          "Stress zz component"]
      ∨ ∃ p ∈ ["tresca", "vonmises", "stress_", "principal stress"],
          p.data <+: st.fieldText.data) :
    (TaskPostDataAtPoint.onFieldActivated env i st).Unit = "Pa" := by
  rcases h with h | ⟨p, hp, hb⟩
  · have hn : st.fieldText ≠ "None" := by
      intro hs
      rw [hs] at h
      revert h
      decide
    rw [onFieldActivated_unit env i st hn]
    simp only [List.mem_cons, List.mem_singleton, List.not_mem_nil, or_false] at h
    unfold TaskPostDataAtPoint.unitChain
    rw [if_pos h]
  · simp only [List.mem_cons, List.mem_singleton, List.not_mem_nil, or_false] at hp
    have hc := unitChain_of_begins_pa st.fieldText p hp hb
    rw [onFieldActivated_unit env i st hc.1, hc.2]

/-- Witness of C1 at the Elmer name "stress_xx 3" with the stale unit "m". -/
theorem onFieldActivated_stress_unit_Pa_witness :
    (TaskPostDataAtPoint.onFieldActivated sampleAtPointEnv 4
      (sampleAtPoint "stress_xx 3")).Unit = "Pa" :=
  onFieldActivated_stress_unit_Pa sampleAtPointEnv 4 (sampleAtPoint "stress_xx 3")
    (Or.inr ⟨"stress_", by decide, by decide⟩)

/-- C2: the field name "Temperature" and every field name that begins with
"temperature" other than exactly "temperature flux" gets Unit "K", and exactly
"temperature flux" gets Unit "W/m^2"; no earlier branch takes such a name. -/
theorem onFieldActivated_temperature_unit (env : AtPointEnv) (i : Int)
    (st : TaskPostDataAtPoint) :
    ((st.fieldText = "Temperature"
        ∨ ("temperature".data <+: st.fieldText.data ∧ st.fieldText ≠ "temperature flux")) →
      (TaskPostDataAtPoint.onFieldActivated env i st).Unit = "K")
    ∧ (st.fieldText = "temperature flux" →
      (TaskPostDataAtPoint.onFieldActivated env i st).Unit = "W/m^2") := by
  constructor
  · rintro (h | ⟨hb, hne⟩)
    · have hn : st.fieldText ≠ "None" := by rw [h]; decide
      rw [onFieldActivated_unit env i st hn, h]
      decide
    · have hc := unitChain_temperature st.fieldText hb hne
      rw [onFieldActivated_unit env i st hc.1, hc.2]
  · intro h
    have hn : st.fieldText ≠ "None" := by rw [h]; decide
    rw [onFieldActivated_unit env i st hn, h]
    decide

/-- Witness of C2 at "temperature loads 1" and at "temperature flux". -/
theorem onFieldActivated_temperature_unit_witness :
    (TaskPostDataAtPoint.onFieldActivated sampleAtPointEnv 1
        (sampleAtPoint "temperature loads 1")).Unit = "K"
    ∧ (TaskPostDataAtPoint.onFieldActivated sampleAtPointEnv 1
        (sampleAtPoint "temperature flux")).Unit = "W/m^2" :=
  ⟨(onFieldActivated_temperature_unit sampleAtPointEnv 1
      (sampleAtPoint "temperature loads 1")).1 (Or.inr ⟨by decide, by decide⟩),
    (onFieldActivated_temperature_unit sampleAtPointEnv 1
      (sampleAtPoint "temperature flux")).2 rfl⟩

/-- C3: when the selected field name is "None", onFieldActivated sets Unit to
the empty string and clears the displayed value, leaves the FieldName property
as it was, and sends nothing (showValue is not called). -/
theorem onFieldActivated_None (env : AtPointEnv) (i : Int) (st : TaskPostDataAtPoint)
    (h : st.fieldText = "None") :
    (TaskPostDataAtPoint.onFieldActivated env i st).Unit = ""
      ∧ (TaskPostDataAtPoint.onFieldActivated env i st).ValueAtPoint = none
      ∧ (TaskPostDataAtPoint.onFieldActivated env i st).FieldName = st.FieldName
      ∧ (TaskPostDataAtPoint.onFieldActivated env i st).log = st.log := by
  simp [TaskPostDataAtPoint.onFieldActivated, h]

/-- Witness of C3 on the sample panel, whose FieldName is "Displacement". -/
theorem onFieldActivated_None_witness :
    (TaskPostDataAtPoint.onFieldActivated sampleAtPointEnv 0 (sampleAtPoint "None")).Unit = ""
      ∧ (TaskPostDataAtPoint.onFieldActivated sampleAtPointEnv 0
          (sampleAtPoint "None")).ValueAtPoint = none
      ∧ (TaskPostDataAtPoint.onFieldActivated sampleAtPointEnv 0
          (sampleAtPoint "None")).FieldName = (sampleAtPoint "None").FieldName
      ∧ (TaskPostDataAtPoint.onFieldActivated sampleAtPointEnv 0
          (sampleAtPoint "None")).log = (sampleAtPoint "None").log :=
  onFieldActivated_None sampleAtPointEnv 0 (sampleAtPoint "None") rfl

/-- C4: for every field name other than "None" that equals none of the names
of the chain and begins with none of its beginnings, onFieldActivated sets Unit
to the empty string, whatever unit was stored before. -/
theorem onFieldActivated_unlisted_unit_empty (env : AtPointEnv) (i : Int)
    (st : TaskPostDataAtPoint) (hn : st.fieldText ≠ "None")
    (hex : st.fieldText ∉ exactNames)
    (hpre : ∀ p ∈ beginNames, ¬ p.data <+: st.fieldText.data) :
    (TaskPostDataAtPoint.onFieldActivated env i st).Unit = "" := by
  rw [onFieldActivated_unit env i st hn]
  exact unitChain_unlisted st.fieldText hex hpre

/-- Witness of C4 at the name "velocity", with the stale unit "m". -/
theorem onFieldActivated_unlisted_unit_empty_witness :
    (sampleAtPoint "velocity").Unit = "m"
      ∧ (TaskPostDataAtPoint.onFieldActivated sampleAtPointEnv 2
          (sampleAtPoint "velocity")).Unit = "" :=
  ⟨rfl, onFieldActivated_unlisted_unit_empty sampleAtPointEnv 2 (sampleAtPoint "velocity")
    (by decide) (by decide) (by decide)⟩

/-! ## Number formatting -/

/-- The flag scientific of toString is set exactly outside the closed range. -/
theorem scientific_iff (val : ℚ) :
    (decide (val < 1 / 100) || decide (val > 10000)) = true
      ↔ ¬ (1 / 100 ≤ val ∧ val ≤ 10000) := by
  rw [Bool.or_eq_true, decide_eq_true_iff, decide_eq_true_iff, not_and_or, not_le, not_le]

/-- C5: toString formats a value in fixed notation if and only if the value
lies in the closed range from 1e-2 to 1e+4, and in scientific notation
otherwise; both bounds themselves are fixed. -/
theorem toString_fixed_iff (decimals : Int) (val : ℚ) :
    ((TaskPostDataAtPoint.toString decimals val).flags.floatfield = FloatField.fixed
        ↔ (1 / 100 ≤ val ∧ val ≤ 10000))
      ∧ ((TaskPostDataAtPoint.toString decimals val).flags.floatfield = FloatField.scientific
        ↔ ¬ (1 / 100 ≤ val ∧ val ≤ 10000)) := by
  simp only [TaskPostDataAtPoint.toString]
  by_cases hr : (1 / 100 ≤ val ∧ val ≤ 10000)
  · have hb : (decide (val < 1 / 100) || decide (val > 10000)) = false := by
      rw [Bool.eq_false_iff]
      exact fun h => (scientific_iff val).1 h hr
    rw [hb]
    exact ⟨⟨fun _ => hr, fun _ => rfl⟩, ⟨fun h => by simp at h, fun h => absurd hr h⟩⟩
  · have hb : (decide (val < 1 / 100) || decide (val > 10000)) = true :=
      (scientific_iff val).2 hr
    rw [hb]
    exact ⟨⟨fun h => by simp at h, fun h => absurd h hr⟩, ⟨fun _ => hr, fun _ => rfl⟩⟩

/-! ## Slider and spin box synchronisation -/

/-- Converting an integral double to int gives the integer back. -/
theorem toInt_intCast (v : ℤ) : toInt (v : ℚ) = v := by
  unfold toInt
  split <;> simp

/-- C6: for constraints with LowerBound < UpperBound and every integer slider
position v (in particular every v in 0..100), the slider position that
onValueValueChanged computes from the value onSliderValueChanged(v) wrote is
again v, in exact arithmetic. -/
theorem scalarClip_slider_round_trip (st : TaskPostScalarClip) (v : ℤ)
    (hb : st.Value.constraints.LowerBound < st.Value.constraints.UpperBound) :
    (TaskPostScalarClip.onValueValueChanged
        (TaskPostScalarClip.onSliderValueChanged v st).Value.value
        (TaskPostScalarClip.onSliderValueChanged v st)).uiSlider = v := by
  have hne : st.Value.constraints.UpperBound - st.Value.constraints.LowerBound ≠ 0 :=
    sub_ne_zero.mpr (ne_of_gt hb)
  simp only [TaskPostScalarClip.onValueValueChanged, TaskPostScalarClip.onSliderValueChanged]
  have : ((st.Value.constraints.LowerBound * (1 - (v : ℚ) / 100)
      + (v : ℚ) / 100 * st.Value.constraints.UpperBound - st.Value.constraints.LowerBound)
      / (st.Value.constraints.UpperBound - st.Value.constraints.LowerBound)) * 100
        = (v : ℚ) := by
    field_simp
    ring
  rw [this, toInt_intCast]

/-- Witness of C6 on the sample panel at slider position 37. -/
theorem scalarClip_slider_round_trip_witness :
    (TaskPostScalarClip.onValueValueChanged
        (TaskPostScalarClip.onSliderValueChanged 37 sampleScalarClip).Value.value
        (TaskPostScalarClip.onSliderValueChanged 37 sampleScalarClip)).uiSlider = 37 :=
  scalarClip_slider_round_trip sampleScalarClip 37 (by norm_num [sampleScalarClip])

/-- C8: for Min != Max and every integer slider position s (in particular
every s in 0..100), onSliderValueChanged(s) sets the warp factor to
Min + s*(Max - Min)/100, and the slider position onValueValueChanged computes
from that factor is again s, in exact arithmetic. -/
theorem warpVector_slider_round_trip (st : TaskPostWarpVector) (s : ℤ)
    (hne : st.uiMin ≠ st.uiMax) :
    (TaskPostWarpVector.onSliderValueChanged s st).Factor
        = st.uiMin + (s : ℚ) * (st.uiMax - st.uiMin) / 100
      ∧ (TaskPostWarpVector.onValueValueChanged
          (TaskPostWarpVector.onSliderValueChanged s st).Factor
          (TaskPostWarpVector.onSliderValueChanged s st)).uiSlider = s := by
  have hd : st.uiMax - st.uiMin ≠ 0 := sub_ne_zero.mpr (Ne.symm hne)
  simp only [TaskPostWarpVector.onValueValueChanged, TaskPostWarpVector.onSliderValueChanged]
  refine ⟨by ring, ?_⟩
  have : (st.uiMin + (st.uiMax - st.uiMin) / 100 * (s : ℚ) - st.uiMin)
      / (st.uiMax - st.uiMin) * 100 = (s : ℚ) := by
    field_simp
    ring
  rw [this, toInt_intCast]

/-- Witness of C8 on the sample panel at slider position 64. -/
theorem warpVector_slider_round_trip_witness :
    (TaskPostWarpVector.onSliderValueChanged 64 sampleWarpVector).Factor
        = sampleWarpVector.uiMin
          + ((64 : ℤ) : ℚ) * (sampleWarpVector.uiMax - sampleWarpVector.uiMin) / 100
      ∧ (TaskPostWarpVector.onValueValueChanged
          (TaskPostWarpVector.onSliderValueChanged 64 sampleWarpVector).Factor
          (TaskPostWarpVector.onSliderValueChanged 64 sampleWarpVector)).uiSlider = 64 :=
  warpVector_slider_round_trip sampleWarpVector 64 (by norm_num [sampleWarpVector])

/-! ## Picked points and signal blocking -/

/-- The log of the data-at-point panel after onChange: one Center command with
the picked coordinates, followed by events that are not Center commands. -/
theorem atPoint_onChange_log (env : AtPointEnv) (x y z : ℚ) (st : TaskPostDataAtPoint) :
    ∃ rest, (TaskPostDataAtPoint.onChange env x y z st).log
        = st.log ++ AtPointEvent.cmdCenter x y z :: rest
      ∧ rest.countP AtPointEvent.isCmdCenter = 0 := by
  simp only [TaskPostDataAtPoint.onChange, TaskPostDataAtPoint.setCenterX,
    TaskPostDataAtPoint.setCenterY, TaskPostDataAtPoint.setCenterZ,
    QuantitySpinBox.setValue, QuantitySpinBox.blockSignals,
    TaskPostDataAtPoint.centerChanged, TaskPostDataAtPoint.onFieldActivated,
    TaskPostDataAtPoint.showValue, Bool.not_true, Bool.false_eq_true, if_false]
  split_ifs <;>
    simp [List.append_assoc, AtPointEvent.isCmdCenter, List.countP_cons]

/-- The centre fields hold the picked coordinates after onChange. -/
theorem atPoint_onChange_fields (env : AtPointEnv) (x y z : ℚ) (st : TaskPostDataAtPoint) :
    (TaskPostDataAtPoint.onChange env x y z st).centerX.value = x
      ∧ (TaskPostDataAtPoint.onChange env x y z st).centerY.value = y
      ∧ (TaskPostDataAtPoint.onChange env x y z st).centerZ.value = z := by
  simp only [TaskPostDataAtPoint.onChange, TaskPostDataAtPoint.setCenterX,
    TaskPostDataAtPoint.setCenterY, TaskPostDataAtPoint.setCenterZ,
    QuantitySpinBox.setValue, QuantitySpinBox.blockSignals,
    TaskPostDataAtPoint.centerChanged, TaskPostDataAtPoint.onFieldActivated,
    TaskPostDataAtPoint.showValue, Bool.not_true, Bool.false_eq_true, if_false]
  split_ifs <;> simp

/-- The events one run of point1Changed sends. -/
theorem point1Changed_log (env : AlongLineEnv) (st : TaskPostDataAlongLine) :
    (TaskPostDataAlongLine.point1Changed env st).log
      = st.log ++ (AlongLineEvent.cmdPoint1 (env.toFloat st.point1X.value)
          (env.toFloat st.point1Y.value) (env.toFloat st.point1Z.value)
        :: (if env.point1CommandRaises then [AlongLineEvent.reportException]
            else [AlongLineEvent.recomputeFeature, AlongLineEvent.refreshField,
              AlongLineEvent.getAxisData])) := by
  unfold TaskPostDataAlongLine.point1Changed
  cases env.point1CommandRaises
  · rcases hm : st.marker with _ | m
    · simp [hm]
    · simp only [hm]
      split_ifs <;> simp
  · simp

/-- The events one run of point2Changed sends. -/
theorem point2Changed_log (env : AlongLineEnv) (st : TaskPostDataAlongLine) :
    (TaskPostDataAlongLine.point2Changed env st).log
      = st.log ++ (AlongLineEvent.cmdPoint2 (env.toFloat st.point2X.value)
          (env.toFloat st.point2Y.value) (env.toFloat st.point2Z.value)
        :: (if env.point2CommandRaises then []
            else [AlongLineEvent.recomputeFeature, AlongLineEvent.refreshField,
              AlongLineEvent.getAxisData])) := by
  unfold TaskPostDataAlongLine.point2Changed
  cases env.point2CommandRaises
  · rcases hm : st.marker with _ | m
    · simp [hm]
    · simp only [hm]
      split_ifs <;> simp
  · simp

/-- The log of the data-along-line panel after onChange holds one new Point1
command and one new Point2 command. -/
theorem alongLine_onChange_log (env : AlongLineEnv) (x1 y1 z1 x2 y2 z2 : ℚ)
    (st : TaskPostDataAlongLine) :
    ∃ rest, (TaskPostDataAlongLine.onChange env x1 y1 z1 x2 y2 z2 st).log = st.log ++ rest
      ∧ rest.countP AlongLineEvent.isCmdPoint1 = 1
      ∧ rest.countP AlongLineEvent.isCmdPoint2 = 1 := by
  simp only [TaskPostDataAlongLine.onChange, TaskPostDataAlongLine.setPoint1Box,
    TaskPostDataAlongLine.setPoint2Box,
    QuantitySpinBox.setValue, QuantitySpinBox.blockSignals,
    Bool.not_true, Bool.false_eq_true, if_false]
  split
  · split_ifs
    all_goals
      simp only [point2Changed_log, point1Changed_log, List.append_assoc]
      refine ⟨_, rfl, ?_, ?_⟩ <;>
        cases env.point1CommandRaises <;> cases env.point2CommandRaises <;>
        simp [AlongLineEvent.isCmdPoint1, AlongLineEvent.isCmdPoint2, List.countP_cons]
  · simp only [point2Changed_log, point1Changed_log, List.append_assoc]
    refine ⟨_, rfl, ?_, ?_⟩ <;>
      cases env.point1CommandRaises <;> cases env.point2CommandRaises <;>
      simp [AlongLineEvent.isCmdPoint1, AlongLineEvent.isCmdPoint2, List.countP_cons]

/-- C9: TaskPostDataAtPoint::onChange(x, y, z) writes the three centre fields
and issues exactly one Center command, which carries the three new coordinates
(centerChanged runs once, not once per coordinate), and
TaskPostDataAlongLine::onChange issues exactly one Point1 command and exactly
one Point2 command (point1Changed and point2Changed run once each). -/
theorem onChange_runs_each_handler_once (env : AtPointEnv) (x y z : ℚ)
    (st : TaskPostDataAtPoint) (envL : AlongLineEnv) (x1 y1 z1 x2 y2 z2 : ℚ)
    (stL : TaskPostDataAlongLine) :
    ((TaskPostDataAtPoint.onChange env x y z st).centerX.value = x
      ∧ (TaskPostDataAtPoint.onChange env x y z st).centerY.value = y
      ∧ (TaskPostDataAtPoint.onChange env x y z st).centerZ.value = z)
    ∧ (∃ rest, (TaskPostDataAtPoint.onChange env x y z st).log
          = st.log ++ AtPointEvent.cmdCenter x y z :: rest
        ∧ rest.countP AtPointEvent.isCmdCenter = 0)
    ∧ (∃ rest, (TaskPostDataAlongLine.onChange envL x1 y1 z1 x2 y2 z2 stL).log
          = stL.log ++ rest
        ∧ rest.countP AlongLineEvent.isCmdPoint1 = 1
        ∧ rest.countP AlongLineEvent.isCmdPoint2 = 1) :=
  ⟨atPoint_onChange_fields env x y z st, atPoint_onChange_log env x y z st,
    alongLine_onChange_log envL x1 y1 z1 x2 y2 z2 stL⟩

/-! ## Accepting the dialog -/

/-- The loop of accept runs through a beginning of Content whose post widgets
all return, logging their calls. -/
theorem acceptLoop_append_returns (pre rest : List ContentWidget)
    (h : ∀ u ∈ TaskDlgPost.postWidgets pre, u.applyPythonCode = ApplyOutcome.returns) :
    ∀ log, TaskDlgPost.acceptLoop (pre ++ rest) log
      = TaskDlgPost.acceptLoop rest (log ++ calls (TaskDlgPost.postWidgets pre)) := by
  induction pre with
  | nil => intro log; simp [TaskDlgPost.postWidgets, calls]
  | cons c pre ih =>
    intro log
    match c with
    | ContentWidget.taskBox (BoxWidget.post w) =>
      have hw : w.applyPythonCode = ApplyOutcome.returns :=
        h w (by simp [TaskDlgPost.postWidgets])
      have ht : ∀ u ∈ TaskDlgPost.postWidgets pre,
          u.applyPythonCode = ApplyOutcome.returns :=
        fun u hu => h u (by simp [TaskDlgPost.postWidgets, hu])
      simp only [List.cons_append, TaskDlgPost.acceptLoop, hw, TaskDlgPost.postWidgets,
        List.append_eq]
      rw [ih ht]
      simp [calls, List.append_assoc]
    | ContentWidget.taskBox BoxWidget.unknown =>
      have ht : ∀ u ∈ TaskDlgPost.postWidgets pre,
          u.applyPythonCode = ApplyOutcome.returns :=
        fun u hu => h u (by simpa [TaskDlgPost.postWidgets] using hu)
      simp only [List.cons_append, TaskDlgPost.acceptLoop, TaskDlgPost.postWidgets,
        List.append_eq]
      exact ih ht log
    | ContentWidget.other =>
      have ht : ∀ u ∈ TaskDlgPost.postWidgets pre,
          u.applyPythonCode = ApplyOutcome.returns :=
        fun u hu => h u (by simpa [TaskDlgPost.postWidgets] using hu)
      simp only [List.cons_append, TaskDlgPost.acceptLoop, TaskDlgPost.postWidgets,
        List.append_eq]
      exact ih ht log

/-- The loop of accept ends without an exception exactly when every post
widget returns. -/
theorem acceptLoop_none_iff (c : List ContentWidget) :
    ∀ log, (TaskDlgPost.acceptLoop c log).2 = none
      ↔ ∀ u ∈ TaskDlgPost.postWidgets c, u.applyPythonCode = ApplyOutcome.returns := by
  induction c with
  | nil => intro log; simp [TaskDlgPost.acceptLoop, TaskDlgPost.postWidgets]
  | cons x c ih =>
    intro log
    match x with
    | ContentWidget.taskBox (BoxWidget.post w) =>
      simp only [TaskDlgPost.acceptLoop, TaskDlgPost.postWidgets, List.mem_cons,
        forall_eq_or_imp]
      cases hw : w.applyPythonCode with
      | returns => simp [ih]
      | raises e => simp
    | ContentWidget.taskBox BoxWidget.unknown =>
      simpa [TaskDlgPost.acceptLoop, TaskDlgPost.postWidgets] using ih log
    | ContentWidget.other =>
      simpa [TaskDlgPost.acceptLoop, TaskDlgPost.postWidgets] using ih log

/-- The loop of accept never issues resetEdit(). -/
theorem acceptLoop_no_resetEdit (c : List ContentWidget) :
    ∀ log, DlgEvent.resetEdit ∉ log →
      DlgEvent.resetEdit ∉ (TaskDlgPost.acceptLoop c log).1 := by
  induction c with
  | nil => intro log h; simpa [TaskDlgPost.acceptLoop] using h
  | cons x c ih =>
    intro log h
    match x with
    | ContentWidget.taskBox (BoxWidget.post w) =>
      simp only [TaskDlgPost.acceptLoop]
      cases hw : w.applyPythonCode with
      | returns => exact ih _ (by simp [h])
      | raises e => simp [h]
    | ContentWidget.taskBox BoxWidget.unknown =>
      simpa [TaskDlgPost.acceptLoop] using ih log h
    | ContentWidget.other => simpa [TaskDlgPost.acceptLoop] using ih log h

/-- C10: accept returns true and issues resetEdit() if and only if no post
widget raises in applyPythonCode; when the first widget that raises raises a
Base::Exception, accept has called the widgets up to and including it, shows
the warning with its text, returns false, issues no resetEdit() and calls no
widget after the failing one. -/
theorem accept_result (Content : List ContentWidget) :
    (((TaskDlgPost.accept Content).1 = AcceptResult.returned true
          ∧ DlgEvent.resetEdit ∈ (TaskDlgPost.accept Content).2)
        ↔ ∀ u ∈ TaskDlgPost.postWidgets Content, u.applyPythonCode = ApplyOutcome.returns)
      ∧ (DlgEvent.resetEdit ∈ (TaskDlgPost.accept Content).2
        ↔ ∀ u ∈ TaskDlgPost.postWidgets Content, u.applyPythonCode = ApplyOutcome.returns)
      ∧ ∀ (pre suf : List ContentWidget) (w : TaskPostWidget) (what : String),
          Content = pre ++ ContentWidget.taskBox (BoxWidget.post w) :: suf →
          (∀ u ∈ TaskDlgPost.postWidgets pre, u.applyPythonCode = ApplyOutcome.returns) →
          w.applyPythonCode = ApplyOutcome.raises (Raised.base what) →
          TaskDlgPost.accept Content = (AcceptResult.returned false,
            calls (TaskDlgPost.postWidgets pre)
              ++ [DlgEvent.applyPythonCode w.ident, DlgEvent.warning what]) := by
  have key : DlgEvent.resetEdit ∈ (TaskDlgPost.accept Content).2
      ↔ (TaskDlgPost.acceptLoop Content []).2 = none := by
    have hno := acceptLoop_no_resetEdit Content [] (by simp)
    unfold TaskDlgPost.accept
    rcases hl : TaskDlgPost.acceptLoop Content [] with ⟨log, r⟩
    rw [hl] at hno
    rcases r with _ | e
    · simp
    · cases e <;> simp [hno]
  have key1 : (TaskDlgPost.accept Content).1 = AcceptResult.returned true
      ↔ (TaskDlgPost.acceptLoop Content []).2 = none := by
    unfold TaskDlgPost.accept
    rcases hl : TaskDlgPost.acceptLoop Content [] with ⟨log, r⟩
    rcases r with _ | e
    · simp
    · cases e <;> simp
  refine ⟨?_, ?_, ?_⟩
  · rw [key, key1, and_self, acceptLoop_none_iff]
  · rw [key, acceptLoop_none_iff]
  · intro pre suf w what hc hpre hw
    subst hc
    unfold TaskDlgPost.accept
    rw [acceptLoop_append_returns pre _ hpre]
    simp [TaskDlgPost.acceptLoop, hw]

/-- Witness of C10 on the sample content: widget 2 raises, widget 3 is not
called. -/
theorem accept_result_witness :
    TaskDlgPost.accept sampleContent = (AcceptResult.returned false,
      [DlgEvent.applyPythonCode 1, DlgEvent.applyPythonCode 2,
        DlgEvent.warning "bad input"]) :=
  (accept_result sampleContent).2.2
    [ContentWidget.taskBox (BoxWidget.post
        { ident := 1, applyPythonCode := ApplyOutcome.returns, isGuiTaskOnly := false }),
      ContentWidget.other]
    [ContentWidget.taskBox (BoxWidget.post
      { ident := 3, applyPythonCode := ApplyOutcome.returns, isGuiTaskOnly := true })]
    { ident := 2, applyPythonCode := ApplyOutcome.raises (Raised.base "bad input"),
      isGuiTaskOnly := false }
    "bad input" rfl (by decide) rfl

/-! ## Reporting of caught exceptions -/

/-- C11: when both point commands raise a Base::Exception on the sample panel,
point1Changed logs the command and the report of the exception, point2Changed
logs the command only: the exception caught there is neither reported nor
logged. -/
theorem point2Changed_drops_exception :
    (TaskPostDataAlongLine.point1Changed sampleAlongLineEnvRaising sampleAlongLine).log
        = [AlongLineEvent.cmdPoint1 1 2 3, AlongLineEvent.reportException]
      ∧ (TaskPostDataAlongLine.point2Changed sampleAlongLineEnvRaising sampleAlongLine).log
        = [AlongLineEvent.cmdPoint2 4 5 6] := by
  constructor <;> rfl

/-! ## The buttons of the dialog -/

/-- Once guionly is false the loop of getStandardButtons keeps it false. -/
theorem guiOnlyLoop_false (c : List ContentWidget) :
    TaskDlgPost.guiOnlyLoop c false = false := by
  induction c with
  | nil => rfl
  | cons x c ih =>
    match x with
    | ContentWidget.taskBox (BoxWidget.post w) => simpa [TaskDlgPost.guiOnlyLoop] using ih
    | ContentWidget.taskBox BoxWidget.unknown => simpa [TaskDlgPost.guiOnlyLoop] using ih
    | ContentWidget.other => simpa [TaskDlgPost.guiOnlyLoop] using ih

/-- The loop of getStandardButtons ends with guionly true exactly when every
task box holds a GUI-only post widget. -/
theorem guiOnlyLoop_true_iff (c : List ContentWidget) :
    TaskDlgPost.guiOnlyLoop c true = true
      ↔ ∀ first, ContentWidget.taskBox first ∈ c →
          ∃ w, first = BoxWidget.post w ∧ w.isGuiTaskOnly = true := by
  induction c with
  | nil => simp [TaskDlgPost.guiOnlyLoop]
  | cons x c ih =>
    match x with
    | ContentWidget.taskBox (BoxWidget.post w) =>
      cases hw : w.isGuiTaskOnly with
      | true =>
        simp only [TaskDlgPost.guiOnlyLoop, hw, Bool.and_true, ih, List.mem_cons,
          ContentWidget.taskBox.injEq]
        constructor
        · rintro h first (rfl | hm)
          · exact ⟨w, rfl, hw⟩
          · exact h first hm
        · exact fun h first hm => h first (Or.inr hm)
      | false =>
        simp only [TaskDlgPost.guiOnlyLoop, hw, Bool.and_false, guiOnlyLoop_false,
          Bool.false_eq_true, false_iff, not_forall]
        refine ⟨BoxWidget.post w, by simp, ?_⟩
        rintro ⟨u, hu, hg⟩
        cases hu
        rw [hw] at hg
        exact Bool.false_ne_true hg
    | ContentWidget.taskBox BoxWidget.unknown =>
      simp only [TaskDlgPost.guiOnlyLoop, guiOnlyLoop_false, Bool.false_eq_true, false_iff,
        not_forall]
      exact ⟨BoxWidget.unknown, by simp, by rintro ⟨u, hu, _⟩; cases hu⟩
    | ContentWidget.other =>
      simp only [TaskDlgPost.guiOnlyLoop, ih, List.mem_cons]
      constructor
      · rintro h first (hm | hm)
        · cases hm
        · exact h first hm
      · exact fun h first hm => h first (Or.inr hm)

/-- C14: getStandardButtons returns only Ok if and only if every TaskBox of
the content holds, as its first widget, a TaskPostWidget whose isGuiTaskOnly()
is true; in every other case it returns Apply | Ok | Cancel, in particular
when a TaskBox holds an unknown panel. -/
theorem getStandardButtons_ok_iff (Content : List ContentWidget) :
    (TaskDlgPost.getStandardButtons Content = [StandardButton.Ok]
        ↔ ∀ first, ContentWidget.taskBox first ∈ Content →
            ∃ w, first = BoxWidget.post w ∧ w.isGuiTaskOnly = true)
      ∧ (TaskDlgPost.getStandardButtons Content = [StandardButton.Ok]
          ∨ TaskDlgPost.getStandardButtons Content
            = [StandardButton.Apply, StandardButton.Ok, StandardButton.Cancel])
      ∧ (ContentWidget.taskBox BoxWidget.unknown ∈ Content →
          TaskDlgPost.getStandardButtons Content
            = [StandardButton.Apply, StandardButton.Ok, StandardButton.Cancel]) := by
  have key := guiOnlyLoop_true_iff Content
  unfold TaskDlgPost.getStandardButtons
  cases hg : TaskDlgPost.guiOnlyLoop Content true with
  | true =>
    rw [hg] at key
    refine ⟨by simpa using key.1 rfl, by simp, ?_⟩
    intro hm
    obtain ⟨w, hw, _⟩ := key.1 rfl _ hm
    cases hw
  | false =>
    rw [hg] at key
    refine ⟨?_, by simp, by simp⟩
    simp only [Bool.not_false, if_true]
    constructor
    · intro h; cases h
    · intro h; exact absurd (key.2 h) (by simp)

/-- Witness of C14 on a content with an unknown panel. -/
theorem getStandardButtons_ok_iff_witness :
    TaskDlgPost.getStandardButtons sampleUnknownContent
      = [StandardButton.Apply, StandardButton.Ok, StandardButton.Cancel] :=
  (getStandardButtons_ok_iff sampleUnknownContent).2.2 (by decide)

/-! ## Creating a function from the clip and cut panels -/

/-- C18: on a panel whose function box is empty and stays empty, since the
document has no function, onCreateButtonTriggered of the clip and of the cut
panel still emits emitAddedFunction once. -/
theorem onCreateButtonTriggered_emits_on_empty_box :
    (TaskPostClip.onCreateButtonTriggered sampleEmptyPanel).FunctionBox.items = []
      ∧ (TaskPostClip.onCreateButtonTriggered sampleEmptyPanel).emittedAddedFunction = 1
      ∧ (TaskPostCut.onCreateButtonTriggered sampleEmptyPanel).FunctionBox.items = []
      ∧ (TaskPostCut.onCreateButtonTriggered sampleEmptyPanel).emittedAddedFunction = 1 := by
  decide

/-- C19: on a panel with three functions whose first entry is current and
names the function of the filter, onCreateButtonTriggered adds no entry and
still switches the box to its last entry, while collecting the functions alone
keeps the first entry current. -/
theorem onCreateButtonTriggered_switches_without_new_function :
    (TaskPostClip.onCreateButtonTriggered sampleThreeFunctions).FunctionBox.items
        = sampleThreeFunctions.FunctionBox.items
      ∧ sampleThreeFunctions.FunctionBox.currentIndex = 0
      ∧ (TaskPostClip.onCreateButtonTriggered sampleThreeFunctions).FunctionBox.currentIndex = 2
      ∧ (TaskPostClip.collectImplicitFunctions sampleThreeFunctions).FunctionBox.currentIndex
        = 0 := by
  decide

/-- The slot run by the signals of the function box makes the filter follow
the box: clearing the box resets the function before it is read, so collecting
the functions makes the first entry current, and the switch to the last entry
makes the last function the function of the filter. -/
theorem functionBox_slot_effect :
    (TaskPostClip.collectImplicitFunctions sampleSecondCurrent).FunctionBox.currentIndex = 0
      ∧ (TaskPostClip.collectImplicitFunctions sampleSecondCurrent).Function = some "Plane"
      ∧ (TaskPostClip.onCreateButtonTriggered sampleThreeFunctions).Function = some "Box" := by
  decide

/-! ## Picking the two points of a line -/

/-- A left press without a picked point only prints the message. -/
theorem pointCallback_press_none (mbe : MouseButtonEvent) (s : PickSession)
    (hb : mbe.button = MouseButton.BUTTON1) (hs : mbe.state = ButtonState.DOWN)
    (hp : mbe.pickedPoint = none) :
    TaskPostDataAlongLine.pointCallback mbe s
      = { s with log := s.log ++ [PickEvent.messageNoPoint] } := by
  simp [TaskPostDataAlongLine.pointCallback, hb, hs, hp]

/-- A left press with a picked point while fewer than two points are stored. -/
theorem pointCallback_press_add (mbe : MouseButtonEvent) (s : PickSession)
    (point : ℚ × ℚ × ℚ)
    (hb : mbe.button = MouseButton.BUTTON1) (hs : mbe.state = ButtonState.DOWN)
    (hp : mbe.pickedPoint = some point) (hc : s.marker.countPoints < 2) :
    TaskPostDataAlongLine.pointCallback mbe s
      = if (s.marker.addPoint point).countPoints = 2 then
          { marker := s.marker.addPoint point, log := s.log ++ [PickEvent.postEvent] }
        else { marker := s.marker.addPoint point, log := s.log } := by
  simp [TaskPostDataAlongLine.pointCallback, hb, hs, hp, hc]

/-- A left press with a picked point while two or more points are stored. -/
theorem pointCallback_press_full (mbe : MouseButtonEvent) (s : PickSession)
    (point : ℚ × ℚ × ℚ)
    (hb : mbe.button = MouseButton.BUTTON1) (hs : mbe.state = ButtonState.DOWN)
    (hp : mbe.pickedPoint = some point) (hc : ¬ s.marker.countPoints < 2) :
    TaskPostDataAlongLine.pointCallback mbe s
      = if s.marker.countPoints = 2 then
          { marker := s.marker, log := s.log ++ [PickEvent.postEvent] }
        else s := by
  simp [TaskPostDataAlongLine.pointCallback, hb, hs, hp, hc]

/-- An event that is not a left press leaves the marker alone and posts
nothing. -/
theorem pointCallback_not_press (mbe : MouseButtonEvent) (s : PickSession)
    (h : ¬ (mbe.button = MouseButton.BUTTON1 ∧ mbe.state = ButtonState.DOWN)) :
    TaskPostDataAlongLine.pointCallback mbe s
      = if mbe.button = MouseButton.BUTTON2 ∧ mbe.state = ButtonState.UP then
          { s with log := s.log ++ [PickEvent.leaveEditing] }
        else s := by
  simp only [TaskPostDataAlongLine.pointCallback, h, if_false]

/-- The cases of pointCallback: what it does to the marker and to the log. -/
theorem pointCallback_cases (mbe : MouseButtonEvent) (s : PickSession) :
    ((TaskPostDataAlongLine.pointCallback mbe s).marker = s.marker
        ∧ ((TaskPostDataAlongLine.pointCallback mbe s).log = s.log
          ∨ (TaskPostDataAlongLine.pointCallback mbe s).log
              = s.log ++ [PickEvent.leaveEditing]
          ∨ (TaskPostDataAlongLine.pointCallback mbe s).log
              = s.log ++ [PickEvent.messageNoPoint]
          ∨ ((TaskPostDataAlongLine.pointCallback mbe s).log
              = s.log ++ [PickEvent.postEvent] ∧ s.marker.countPoints = 2)))
      ∨ (∃ point, mbe.button = MouseButton.BUTTON1 ∧ mbe.state = ButtonState.DOWN
          ∧ mbe.pickedPoint = some point ∧ s.marker.countPoints < 2
          ∧ (TaskPostDataAlongLine.pointCallback mbe s).marker = s.marker.addPoint point
          ∧ (((TaskPostDataAlongLine.pointCallback mbe s).log = s.log
              ∧ (s.marker.addPoint point).countPoints ≠ 2)
            ∨ ((TaskPostDataAlongLine.pointCallback mbe s).log
                = s.log ++ [PickEvent.postEvent]
              ∧ (s.marker.addPoint point).countPoints = 2))) := by
  by_cases h1 : mbe.button = MouseButton.BUTTON1 ∧ mbe.state = ButtonState.DOWN
  · rcases hp : mbe.pickedPoint with _ | point
    · rw [pointCallback_press_none mbe s h1.1 h1.2 hp]
      exact Or.inl ⟨rfl, Or.inr (Or.inr (Or.inl rfl))⟩
    · by_cases hc : s.marker.countPoints < 2
      · rw [pointCallback_press_add mbe s point h1.1 h1.2 hp hc]
        refine Or.inr ⟨point, h1.1, h1.2, rfl, hc, ?_⟩
        by_cases h2 : (s.marker.addPoint point).countPoints = 2
        · rw [if_pos h2]; exact ⟨rfl, Or.inr ⟨rfl, h2⟩⟩
        · rw [if_neg h2]; exact ⟨rfl, Or.inl ⟨rfl, h2⟩⟩
      · rw [pointCallback_press_full mbe s point h1.1 h1.2 hp hc]
        by_cases h2 : s.marker.countPoints = 2
        · rw [if_pos h2]; exact Or.inl ⟨rfl, Or.inr (Or.inr (Or.inr ⟨rfl, h2⟩))⟩
        · rw [if_neg h2]; exact Or.inl ⟨rfl, Or.inl rfl⟩
  · rw [pointCallback_not_press mbe s h1]
    by_cases h2 : mbe.button = MouseButton.BUTTON2 ∧ mbe.state = ButtonState.UP
    · rw [if_pos h2]; exact Or.inl ⟨rfl, Or.inr (Or.inl rfl)⟩
    · rw [if_neg h2]; exact Or.inl ⟨rfl, Or.inl rfl⟩

/-- One event keeps the marker at two points or fewer. -/
theorem pointCallback_count_le (mbe : MouseButtonEvent) (s : PickSession)
    (h : s.marker.countPoints ≤ 2) :
    (TaskPostDataAlongLine.pointCallback mbe s).marker.countPoints ≤ 2 := by
  rcases pointCallback_cases mbe s with ⟨hm, _⟩ | ⟨point, _, _, _, hc, hm, _⟩
  · rw [hm]; exact h
  · rw [hm]
    simp only [PointMarker.countPoints, PointMarker.addPoint, List.length_append,
      List.length_singleton] at hc ⊢
    omega

/-- Every sequence of events keeps the marker at two points or fewer. -/
theorem pointCallbacks_count_le (events : List MouseButtonEvent) :
    ∀ s : PickSession, s.marker.countPoints ≤ 2 →
      (TaskPostDataAlongLine.pointCallbacks events s).marker.countPoints ≤ 2 := by
  induction events with
  | nil => intro s h; exact h
  | cons e es ih =>
    intro s h
    simp only [TaskPostDataAlongLine.pointCallbacks, List.foldl_cons]
    exact ih _ (pointCallback_count_le e s h)

/-- C20: for every sequence of mouse button events delivered to pointCallback
the marker never holds more than two points; a left-button press stores the
picked point exactly when fewer than two points are stored, every other event
leaves the points alone, a press without a picked point changes nothing of the
marker and only prints the message, and the event that publishes the points is
posted only when exactly two points are stored. -/
theorem pointCallback_marker_invariant (s : PickSession) (h : s.marker.countPoints ≤ 2) :
    (∀ events, (TaskPostDataAlongLine.pointCallbacks events s).marker.countPoints ≤ 2)
      ∧ (∀ mbe point, mbe.button = MouseButton.BUTTON1 → mbe.state = ButtonState.DOWN →
          mbe.pickedPoint = some point →
          (TaskPostDataAlongLine.pointCallback mbe s).marker.points
            = if s.marker.countPoints < 2 then s.marker.points ++ [point]
              else s.marker.points)
      ∧ (∀ mbe, ¬ (mbe.button = MouseButton.BUTTON1 ∧ mbe.state = ButtonState.DOWN
            ∧ mbe.pickedPoint ≠ none) →
          (TaskPostDataAlongLine.pointCallback mbe s).marker.points = s.marker.points)
      ∧ (∀ mbe, mbe.button = MouseButton.BUTTON1 → mbe.state = ButtonState.DOWN →
          mbe.pickedPoint = none →
          (TaskPostDataAlongLine.pointCallback mbe s).marker = s.marker
            ∧ (TaskPostDataAlongLine.pointCallback mbe s).log
              = s.log ++ [PickEvent.messageNoPoint])
      ∧ (∀ mbe, ∃ added, (TaskPostDataAlongLine.pointCallback mbe s).log = s.log ++ added
          ∧ (PickEvent.postEvent ∈ added →
            (TaskPostDataAlongLine.pointCallback mbe s).marker.countPoints = 2)) := by
  refine ⟨fun events => pointCallbacks_count_le events s h, ?_, ?_, ?_, ?_⟩
  · intro mbe point hb hs hp
    by_cases hc : s.marker.countPoints < 2
    · rw [pointCallback_press_add mbe s point hb hs hp hc, if_pos hc]
      split <;> rfl
    · rw [pointCallback_press_full mbe s point hb hs hp hc, if_neg hc]
      split <;> rfl
  · intro mbe hn
    rcases pointCallback_cases mbe s with ⟨hm, _⟩ | ⟨point, hb, hs, hp, _, _, _⟩
    · rw [hm]
    · exact absurd ⟨hb, hs, by simp [hp]⟩ hn
  · intro mbe hb hs hp
    rw [pointCallback_press_none mbe s hb hs hp]
    exact ⟨rfl, rfl⟩
  · intro mbe
    rcases pointCallback_cases mbe s with
      ⟨hm, hl | hl | hl | ⟨hl, hc⟩⟩ | ⟨point, _, _, _, _, hm, ⟨hl, _⟩ | ⟨hl, hc⟩⟩
    · exact ⟨[], by simp [hl], by simp⟩
    · exact ⟨_, hl, by simp⟩
    · exact ⟨_, hl, by simp⟩
    · exact ⟨_, hl, fun _ => by rw [hm]; exact hc⟩
    · exact ⟨[], by simp [hl], by simp⟩
    · exact ⟨_, hl, fun _ => by rw [hm]; exact hc⟩

/-- Witness of C20 on the sample session and the sample events. -/
theorem pointCallback_marker_invariant_witness :
    (TaskPostDataAlongLine.pointCallbacks sampleMouseEvents samplePickSession).marker.countPoints
      ≤ 2 :=
  (pointCallback_marker_invariant samplePickSession (by decide)).1 sampleMouseEvents

end FemGui

namespace Gui

/-! ## The count label -/

/-- C12: on the sample application nothing is selected, yet after a search
for "box" in a freshly constructed view the count label shows "1", the number
of search hits in the list, not the number of selected items that its tooltip
promises. -/
theorem countLabel_differs_from_selection_after_search :
    sampleApp.selection.length = 0
      ∧ (SelectionView.search sampleApp "box" (SelectionView.constructed true)).countLabel = "1"
      ∧ (SelectionView.search sampleApp "box" (SelectionView.constructed true)).selectionView
        = [searchItem samplePartDoc { name := "Box", label := "Box" }]
      ∧ (SelectionView.search sampleApp "box" (SelectionView.constructed true)).countLabel
        ≠ number sampleApp.selection.length := by
  decide

/-- The last statement of onSelectionChanged writes the count of the list. -/
theorem onSelectionChanged_countLabel (app : App) (Reason : SelectionChanges)
    (v w : SelectionView) (h : SelectionView.onSelectionChanged app Reason v = some w) :
    w.countLabel = number w.selectionView.length := by
  simp only [SelectionView.onSelectionChanged] at h
  split at h
  · cases h
  · cases h; rfl

/-- A search keeps the count label equal to the count of the list. -/
theorem search_countLabel (app : App) (text : String) (v : SelectionView)
    (h : v.countLabel = number v.selectionView.length) :
    (SelectionView.search app text v).countLabel
      = number (SelectionView.search app text v).selectionView.length := by
  unfold SelectionView.search
  split
  · split
    · rfl
    · exact h
  · exact h

/-- Every sequence of calls keeps the count label equal to the count of the
list. -/
theorem runCalls_countLabel (calls : List Call) :
    ∀ v w : SelectionView, v.countLabel = number v.selectionView.length →
      runCalls calls v = some w → w.countLabel = number w.selectionView.length := by
  induction calls with
  | nil => intro v w hv h; cases h; exact hv
  | cons c cs ih =>
    intro v w hv h
    cases c with
    | onSelectionChanged app Reason =>
      simp only [runCalls] at h
      split at h
      · cases h
      · rename_i u hu
        exact ih u w (onSelectionChanged_countLabel app Reason v u hu) h
    | search app text =>
      simp only [runCalls] at h
      exact ih _ w (search_countLabel app text v hv) h

/-- What the code keeps instead: after every call of onSelectionChanged and of
search, for every sequence of such calls on a constructed view, the count
label shows the number of items in the list of the view. -/
theorem countLabel_shows_item_count (calls : List Call) (parentVisible : Bool) (w : SelectionView)
    (h : runCalls calls (SelectionView.constructed parentVisible) = some w) :
    w.countLabel = number w.selectionView.length :=
  runCalls_countLabel calls _ w (by cases parentVisible <;> decide) h


/-- The sample calls complete, and the label counts the list after them. -/
theorem countLabel_shows_item_count_witness :
    ∃ w, runCalls sampleCalls (SelectionView.constructed true) = some w
      ∧ w.countLabel = number w.selectionView.length := by
  have hsome : (runCalls sampleCalls (SelectionView.constructed true)).isSome = true := by
    decide
  obtain ⟨w, hw⟩ := Option.isSome_iff_exists.mp hsome
  exact ⟨w, hw, countLabel_shows_item_count sampleCalls true w hw⟩

/-! ## Searching object labels -/

/-- What the loop of search adds to the search list and to the list widget. -/
theorem searchLoop_spec (app : App) (doc : Document) (text : String) :
    ∀ (objects : List DocumentObject) (v : SelectionView),
      (SelectionView.searchLoop app doc text objects v).searchList
          = v.searchList ++ objects.filter (fun o => app.contains o.label text)
        ∧ (SelectionView.searchLoop app doc text objects v).selectionView
          = v.selectionView
            ++ (objects.filter (fun o => app.contains o.label text)).map (searchItem doc) := by
  intro objects
  induction objects with
  | nil => intro v; simp [SelectionView.searchLoop]
  | cons o os ih =>
    intro v
    simp only [SelectionView.searchLoop]
    by_cases hc : app.contains o.label text = true
    · simp only [hc, if_true, List.filter_cons_of_pos, List.map_cons]
      obtain ⟨h1, h2⟩ := ih { v with
        searchList := v.searchList ++ [o],
        selectionView := v.selectionView
          ++ [{ text := "" ++ doc.label ++ "#" ++ o.name ++ " (" ++ o.label ++ ")",
                data := [doc.name, o.name] }] }
      refine ⟨by rw [h1]; simp, ?_⟩
      rw [h2]
      simp [searchItem]
    · simp only [hc, if_false, Bool.false_eq_true]
      have hf : (o :: os).filter (fun o => app.contains o.label text)
          = os.filter (fun o => app.contains o.label text) := by
        simp [List.filter_cons, hc]
      rw [hf]
      exact ih v

/-- C13: for every non-empty text and an active document, after search the
search list holds, in document order, exactly the objects of the active
document whose label contains the text case-insensitively, and the list of the
view holds one item for each of them and nothing else; for the empty text the
view is left unchanged. -/
theorem search_result (app : App) (text : String) (v : SelectionView) :
    (text ≠ "" → ∀ doc, app.activeDocument = some doc →
        (SelectionView.search app text v).searchList
            = doc.objects.filter (fun o => app.contains o.label text)
          ∧ (SelectionView.search app text v).selectionView
            = (doc.objects.filter (fun o => app.contains o.label text)).map (searchItem doc))
      ∧ (text = "" → SelectionView.search app text v = v) := by
  constructor
  · intro ht doc hd
    simp only [SelectionView.search, ht, ne_eq, not_false_eq_true, if_true, hd]
    obtain ⟨h1, h2⟩ := searchLoop_spec app doc text doc.objects
      { v with searchList := [], selectionView := [] }
    exact ⟨by simpa using h1, by simpa using h2⟩
  · intro ht
    simp [SelectionView.search, ht]

/-- Witness of C13: the search for "ox" on the sample application. -/
theorem search_result_witness :
    (SelectionView.search sampleApp "ox" (SelectionView.constructed true)).searchList
        = samplePartDoc.objects.filter (fun o => sampleApp.contains o.label "ox")
      ∧ (SelectionView.search sampleApp "ox" (SelectionView.constructed true)).selectionView
        = (samplePartDoc.objects.filter (fun o => sampleApp.contains o.label "ox")).map
            (searchItem samplePartDoc) :=
  (search_result sampleApp "ox" (SelectionView.constructed true)).1 (by decide)
    samplePartDoc rfl

/-! ## Changes of the selection -/

/-- C15: clearing the selection of the document Part on a view that lists an
object of the document part and an object of the document Part removes both
items, the one of the other document included. -/
theorem clrSelection_removes_other_document :
    (SelectionView.onSelectionChanged sampleApp
        { type := MsgType.ClrSelection, pDocName := "Part", pObjectName := "", pSubName := "" }
        sampleTwoDocView).map (fun v => v.selectionView) = some [] := by
  decide

/-- A text has a positive size exactly when it is not empty. -/
theorem length_pos_iff_ne_empty (s : String) : s.length > 0 ↔ s ≠ "" := by
  rw [String.length, gt_iff_lt, List.length_pos, ne_eq, ne_eq, String.ext_iff]

/-- The text getSelectionName writes to an empty stream. -/
theorem getSelectionName_eq (app : App) (docName objName subName : String)
    (obj : DocumentObject) :
    SelectionView.getSelectionName app "" docName objName subName obj
      = docName ++ "#" ++ objName
        ++ (if subName ≠ "" then
              "." ++ (app.resolveElement obj subName).oldName
                ++ (if (app.resolveElement obj subName).newName ≠ "" then " []" else "")
            else "")
        ++ " (" ++ (if subName ≠ "" then (app.getSubObject obj subName).getD obj
                    else obj).label ++ ")" := by
  unfold SelectionView.getSelectionName
  by_cases hs : subName = ""
  · simp [hs, String.append_assoc]
  · simp only [ne_eq, hs, not_false_eq_true, if_true, length_pos_iff_ne_empty]
    by_cases hn : (app.resolveElement obj subName).newName = ""
    · rcases hg : app.getSubObject obj subName with _ | sub <;>
        simp [hn, hg, String.append_assoc]
    · rcases hg : app.getSubObject obj subName with _ | sub <;>
        simp [hn, hg, String.append_assoc]

/-- C16: on an AddSelection change onSelectionChanged appends exactly one
item whose text is "<doc>#<obj>", followed, when the sub-element name is
non-empty, by "." and the old-style element name, plus " []" exactly when the
element has a new-style name, followed by " (<label>)" with the label of the
resolved sub-object if there is one and of the object otherwise. -/
theorem addSelection_item (app : App) (Reason : SelectionChanges) (v : SelectionView)
    (doc : Document) (obj : DocumentObject)
    (ht : Reason.type = MsgType.AddSelection)
    (hd : app.getDocument Reason.pDocName = some doc)
    (ho : doc.getObject Reason.pObjectName = some obj) :
    ∃ w, SelectionView.onSelectionChanged app Reason v = some w
      ∧ w.selectionView = v.selectionView ++
        [{ text := Reason.pDocName ++ "#" ++ Reason.pObjectName
            ++ (if Reason.pSubName ≠ "" then
                  "." ++ (app.resolveElement obj Reason.pSubName).oldName
                    ++ (if (app.resolveElement obj Reason.pSubName).newName ≠ "" then " []"
                        else "")
                else "")
            ++ " (" ++ (if Reason.pSubName ≠ "" then
                          (app.getSubObject obj Reason.pSubName).getD obj
                        else obj).label ++ ")",
           data := [Reason.pDocName, Reason.pObjectName] }] := by
  have hv : (SelectionView.autoShowStep app v).selectionView = v.selectionView := by
    unfold SelectionView.autoShowStep
    split_ifs <;> rfl
  simp only [SelectionView.onSelectionChanged, SelectionView.selectionBranch, ht, hd, ho,
    getSelectionName_eq, hv]
  exact ⟨_, rfl, rfl⟩

/-- Witness of C16: selecting Face1 of the box of the sample application. -/
theorem addSelection_item_witness :
    ∃ w, SelectionView.onSelectionChanged sampleApp sampleAddFace
        (SelectionView.constructed true) = some w
      ∧ w.selectionView = [{ text := "Part#Box.Face1 (Box)", data := ["Part", "Box"] }] := by
  obtain ⟨w, h1, h2⟩ := addSelection_item sampleApp sampleAddFace
    (SelectionView.constructed true) samplePartDoc { name := "Box", label := "Box" }
    rfl (by decide) (by decide)
  exact ⟨w, h1, by rw [h2]; decide⟩

/-! ## The module of a type -/

/-- The search for a colon passes every text without one. -/
theorem findFirstOfAux_colon (m rest : List Char) (h : ':' ∉ m) :
    ∀ i, SelectionView.findFirstOfAux [':', ':'] (m ++ ':' :: rest) i = some (i + m.length) := by
  induction m with
  | nil => intro i; simp [SelectionView.findFirstOfAux]
  | cons c t ih =>
    intro i
    have hc : c ≠ ':' := fun hc => h (by simp [hc])
    have ht : ':' ∉ t := fun ht => h (by simp [ht])
    simp only [List.cons_append, SelectionView.findFirstOfAux, List.append_eq]
    rw [if_neg (by simp [hc])]
    rw [ih ht]
    simp only [List.length_cons]
    congr 1
    omega

/-- The module text of a name of the form module::class. -/
theorem moduleOf_qualified (m c : String) (h : ':' ∉ m.data) :
    SelectionView.moduleOf (m ++ "::" ++ c) = m := by
  have hd : (m ++ "::" ++ c).data = m.data ++ ':' :: (':' :: c.data) := by
    simp [String.data_append]
  unfold SelectionView.moduleOf SelectionView.find_first_of
  rw [hd]
  have := findFirstOfAux_colon m.data (':' :: c.data) h 0
  rw [show ("::" : String).data = [':', ':'] from rfl, this]
  simp

/-- The loop of getModule stops at the first ancestor in module App and keeps
the module of the class directly below it. -/
theorem getModuleLoop_below_app (below : List String) :
    ∀ (t : BaseType) (c a : String) (above : List String) (kept : String),
      t.lineage = below ++ c :: a :: above →
      (∀ n ∈ below, SelectionView.moduleOf n ≠ "App") →
      SelectionView.moduleOf c ≠ "App" → SelectionView.moduleOf a = "App" →
      SelectionView.getModuleLoop t kept = SelectionView.moduleOf c := by
  induction below with
  | nil =>
    intro t c a above kept hl _ hc ha
    match t, hl with
    | BaseType.type n (BaseType.type n2 p2), hl =>
      simp only [BaseType.lineage, List.nil_append, List.cons.injEq] at hl
      obtain ⟨rfl, rfl, _⟩ := hl
      simp [SelectionView.getModuleLoop, hc, ha]
    | BaseType.type n BaseType.bad, hl => simp [BaseType.lineage] at hl
    | BaseType.bad, hl => simp [BaseType.lineage] at hl
  | cons b bs ih =>
    intro t c a above kept hl hb hc ha
    match t, hl with
    | BaseType.type n p, hl =>
      simp only [BaseType.lineage, List.cons_append, List.cons.injEq] at hl
      obtain ⟨rfl, hp⟩ := hl
      have hn : SelectionView.moduleOf n ≠ "App" := hb n (by simp)
      simp only [SelectionView.getModuleLoop, ne_eq, hn, not_false_eq_true, if_true]
      exact ih p c a above _ hp (fun x hx => hb x (by simp [hx])) hc ha
    | BaseType.bad, hl => simp [BaseType.lineage] at hl

/-- C17: getModule returns the empty text for a bad type and for a type that
itself is in module App; otherwise, going up the inheritance chain, it returns
the module name of the class directly below the nearest ancestor in module App,
where the module name of module::class is the text before the "::". -/
theorem getModule_result (app : App) (type : String) :
    (app.fromName type = BaseType.bad → SelectionView.getModule app type = "")
      ∧ (∀ name parent, app.fromName type = BaseType.type name parent →
          SelectionView.moduleOf name = "App" → SelectionView.getModule app type = "")
      ∧ (∀ below c a above, (app.fromName type).lineage = below ++ c :: a :: above →
          (∀ n ∈ below, SelectionView.moduleOf n ≠ "App") →
          SelectionView.moduleOf c ≠ "App" → SelectionView.moduleOf a = "App" →
          SelectionView.getModule app type = SelectionView.moduleOf c)
      ∧ (∀ m c : String, ':' ∉ m.data → SelectionView.moduleOf (m ++ "::" ++ c) = m) := by
  refine ⟨?_, ?_, ?_, moduleOf_qualified⟩
  · intro h
    simp [SelectionView.getModule, h, SelectionView.getModuleLoop]
  · intro name parent h hm
    simp [SelectionView.getModule, h, SelectionView.getModuleLoop, hm]
  · intro below c a above hl hb hc ha
    exact getModuleLoop_below_app below _ c a above "" hl hb hc ha


/-- Witness of C17: a pad derives from Part::Feature, which derives from
App::GeoFeature. -/
theorem getModule_result_witness : SelectionView.getModule sampleApp "PartDesign::Pad" = "Part" :=
  ((getModule_result sampleApp "PartDesign::Pad").2.2.1 ["PartDesign::Pad"] "Part::Feature"
    "App::GeoFeature" ["App::DocumentObject"] (by decide) (by decide) (by decide)
    (by decide)).trans (by decide)

end Gui
